import Mathlib

/-!
Verification of the stock-planning optimization engine of the DemandIQ
repository (server/utils/optimizer.py and server/routes/plan.py).

The optimizer is embedded shallowly: demand series are lists of rationals,
the per-day arithmetic is carried out over the reals (numpy population
standard deviation introduces a square root), and the two-decimal rounding
of the source is modelled by `round2` below.  Python rounding of floats is
modelled as rounding to the nearest multiple of 1/100; every concrete input
used in a theorem below is tie-free, so the tie-breaking rule is irrelevant.
-/

namespace DemandIQ

/-! ## Rounding helpers (model of round(x, 2) and round(x, 3)) -/

/-- Model of round(x, 2): round to the nearest multiple of 1/100. -/
noncomputable def round2 (x : ℝ) : ℝ := ((round (x * 100) : ℤ) : ℝ) / 100

/-- Model of round(x, 3): round to the nearest multiple of 1/1000. -/
noncomputable def round3 (x : ℝ) : ℝ := ((round (x * 1000) : ℤ) : ℝ) / 1000

theorem round_le_round {x y : ℝ} (h : x ≤ y) : round x ≤ round y := by
  rw [round_eq, round_eq]
  exact Int.floor_le_floor (by linarith)

theorem round2_mono {x y : ℝ} (h : x ≤ y) : round2 x ≤ round2 y := by
  unfold round2
  have := round_le_round (mul_le_mul_of_nonneg_right h (by norm_num : (0:ℝ) ≤ 100))
  have h2 : ((round (x * 100) : ℤ) : ℝ) ≤ ((round (y * 100) : ℤ) : ℝ) := by exact_mod_cast this
  linarith

theorem round3_mono {x y : ℝ} (h : x ≤ y) : round3 x ≤ round3 y := by
  unfold round3
  have := round_le_round (mul_le_mul_of_nonneg_right h (by norm_num : (0:ℝ) ≤ 1000))
  have h2 : ((round (x * 1000) : ℤ) : ℝ) ≤ ((round (y * 1000) : ℤ) : ℝ) := by exact_mod_cast this
  linarith

theorem round2_zero : round2 0 = 0 := by
  unfold round2
  norm_num

theorem round3_zero : round3 0 = 0 := by
  unfold round3
  norm_num

theorem round2_nonneg {x : ℝ} (h : 0 ≤ x) : 0 ≤ round2 x := by
  have := round2_mono h
  rwa [round2_zero] at this

theorem round3_nonneg {x : ℝ} (h : 0 ≤ x) : 0 ≤ round3 x := by
  have := round3_mono h
  rwa [round3_zero] at this

theorem round2_eq_of {x : ℝ} {k : ℤ} (h1 : (k : ℝ) ≤ x * 100 + 1 / 2)
    (h2 : x * 100 + 1 / 2 < (k : ℝ) + 1) : round2 x = (k : ℝ) / 100 := by
  have hk : round (x * 100) = k := by
    rw [round_eq]
    refine Int.floor_eq_iff.mpr ⟨h1, ?_⟩
    linarith
  unfold round2
  rw [hk]

theorem round3_eq_of {x : ℝ} {k : ℤ} (h1 : (k : ℝ) ≤ x * 1000 + 1 / 2)
    (h2 : x * 1000 + 1 / 2 < (k : ℝ) + 1) : round3 x = (k : ℝ) / 1000 := by
  have hk : round (x * 1000) = k := by
    rw [round_eq]
    refine Int.floor_eq_iff.mpr ⟨h1, ?_⟩
    linarith
  unfold round3
  rw [hk]

theorem abs_round2_sub (x : ℝ) : |round2 x - x| ≤ 1 / 200 := by
  have h := abs_sub_round (x * 100)
  rw [abs_sub_comm] at h
  unfold round2
  have e : ((round (x * 100) : ℤ) : ℝ) / 100 - x = (((round (x * 100) : ℤ) : ℝ) - x * 100) / 100 := by
    ring
  rw [e, abs_div, abs_of_pos (by norm_num : (0:ℝ) < 100)]
  linarith

theorem round2_le_one_hundred {x : ℝ} (h : x ≤ 100) : round2 x ≤ 100 := by
  have h1 : round2 x ≤ round2 100 := round2_mono h
  have h2 : round2 100 = 100 := by
    have : round ((100 : ℝ) * 100) = (10000 : ℤ) := by
      norm_num
    unfold round2
    rw [show ((100 : ℝ) * 100) = ((10000 : ℤ) : ℝ) by norm_num, round_intCast]
    norm_num
  linarith

theorem round3_le_one {x : ℝ} (h : x ≤ 1) : round3 x ≤ 1 := by
  have h1 : round3 x ≤ round3 1 := round3_mono h
  have h2 : round3 1 = 1 := by
    unfold round3
    rw [show ((1 : ℝ) * 1000) = ((1000 : ℤ) : ℝ) by norm_num, round_intCast]
    norm_num
  linarith

/-- round2 applied to an integer multiple of 1/100 is the identity; entries of
the daily stock vector produced by the allocation loop have this shape. -/
theorem round2_max_zero_round2 (v : ℝ) : round2 (max 0 (round2 v)) = max 0 (round2 v) := by
  rcases le_or_lt (round2 v) 0 with h | h
  · rw [max_eq_left h, round2_zero]
  · rw [max_eq_right h.le]
    unfold round2
    rw [div_mul_cancel₀ _ (by norm_num : (100:ℝ) ≠ 0), round_intCast]

/-! ## Embedding of StockOptimizer._optimize_single_product (optimizer.py, lines 94-157) -/

/-- Line 107: avg_demand = sum(daily_forecast) / len(daily_forecast). -/
def mean (l : List ℚ) : ℚ := l.sum / (l.length : ℚ)

/-- Population variance, the square of np.std used on line 108. -/
def popVar (l : List ℚ) : ℚ := (l.map (fun x => (x - mean l) ^ 2)).sum / (l.length : ℚ)

/-- Line 108: demand_std = np.std(daily_forecast) if len > 1 else avg_demand * 0.2. -/
noncomputable def demandStd (l : List ℚ) : ℝ :=
  if 1 < l.length then Real.sqrt ((popVar l : ℚ) : ℝ) else ((mean l : ℚ) : ℝ) * 0.2

/-- Line 109: safety_stock_factor = min(0.5, demand_std / max(avg_demand, 1)). -/
noncomputable def safetyStockFactor (l : List ℚ) : ℝ :=
  min 0.5 (demandStd l / max ((mean l : ℚ) : ℝ) 1)

/-- Line 122: shelf_life_factor = max(0.1, min(1.0, shelf_life / 30)). -/
def shelfLifeFactor (sl : ℚ) : ℚ := max 0.1 (min 1 (sl / 30))

/-- Line 96: n_days = min(horizon, len(daily_forecast)). -/
def nDays (l : List ℚ) (horizon : ℕ) : ℕ := min horizon l.length

/-- Lines 116-131: the base stock of a day after the peak-day and trough-day
adjustment.  The day demand falls back to the average when the index is out of
range, exactly as on line 116. -/
def baseStockAdj (l : List ℚ) (day : ℕ) : ℚ :=
  if day < l.length then
    (if l.getD day (mean l) > mean l * 1.2 then l.getD day (mean l) * 1.1
     else if l.getD day (mean l) < mean l * 0.8 then l.getD day (mean l) * 0.9
     else l.getD day (mean l))
  else l.getD day (mean l)

/-- Lines 116-134: one day of the allocation loop.  Note that on line 123 the
safety stock is computed from the base stock BEFORE the peak/trough adjustment
of lines 126-131, which happens later in the loop body. -/
noncomputable def dayStock (l : List ℚ) (sl : ℚ) (day : ℕ) : ℝ :=
  max 0 (round2 (((baseStockAdj l day : ℚ) : ℝ) +
    ((l.getD day (mean l) : ℚ) : ℝ) * safetyStockFactor l * ((shelfLifeFactor sl : ℚ) : ℝ)))

/-- Lines 112-134: the daily stock list produced by the allocation loop. -/
noncomputable def rawDailyStock (l : List ℚ) (sl : ℚ) (horizon : ℕ) : List ℝ :=
  (List.range (nDays l horizon)).map (dayStock l sl)

/-- Line 142: service_level = min(100, total_stock / max(total_demand, 1) * 100),
computed on the loop output before any correction. -/
noncomputable def preServiceLevel (l : List ℚ) (sl : ℚ) (horizon : ℕ) : ℝ :=
  min 100 ((rawDailyStock l sl horizon).sum / max ((l.sum : ℚ) : ℝ) 1 * 100)

/-- Line 146: adjustment_factor = 80 / max(service_level, 1). -/
noncomputable def adjustmentFactor (l : List ℚ) (sl : ℚ) (horizon : ℕ) : ℝ :=
  80 / max (preServiceLevel l sl horizon) 1

/-- Lines 145-148: the daily stock after the service-level correction pass
(scaled when the pre-correction service level is below 80, unchanged else). -/
noncomputable def correctedDailyStock (l : List ℚ) (sl : ℚ) (horizon : ℕ) : List ℝ :=
  if preServiceLevel l sl horizon < 80 then
    (rawDailyStock l sl horizon).map (fun s => s * adjustmentFactor l sl horizon)
  else rawDailyStock l sl horizon

/-- Lines 145-149: the service level finally reported (recomputed after the
correction pass when it ran, the pre-correction value otherwise). -/
noncomputable def finalServiceLevel (l : List ℚ) (sl : ℚ) (horizon : ℕ) : ℝ :=
  if preServiceLevel l sl horizon < 80 then
    min 100 ((correctedDailyStock l sl horizon).sum / max ((l.sum : ℚ) : ℝ) 1 * 100)
  else preServiceLevel l sl horizon

/-- Lines 159-183: StockOptimizer._calculate_wastage_risk. -/
noncomputable def calcWastageRisk (dailyStock : List ℝ) (forecast : List ℚ) (sl : ℚ) : ℝ :=
  if dailyStock = [] ∨ forecast = [] then 0
  else if (forecast.sum : ℚ) = 0 then (if 0 < dailyStock.sum then 1 else 0)
  else
    min 1 (max 0 ((dailyStock.sum - ((forecast.sum : ℚ) : ℝ)) / ((forecast.sum : ℚ) : ℝ)) * 0.5 +
      max 0 ((14 - ((sl : ℚ) : ℝ)) / 14) * 0.3 +
      max 0 (((dailyStock.length : ℝ) - ((sl : ℚ) : ℝ)) / max (dailyStock.length : ℝ) 1) * 0.2)

/-- The four fields returned by _optimize_single_product (lines 99-104, 152-157). -/
structure AllocResult where
  daily_stock : List ℝ
  total_stock : ℝ
  wastage_risk : ℝ
  service_level : ℝ

/-- Lines 94-157: StockOptimizer._optimize_single_product. -/
noncomputable def optimizeSingleProduct (l : List ℚ) (sl : ℚ) (horizon : ℕ) : AllocResult :=
  if nDays l horizon = 0 ∨ l = [] then
    ⟨List.replicate (max 1 (nDays l horizon)) 0, 0, 0, 0⟩
  else
    ⟨(correctedDailyStock l sl horizon).map round2,
     round2 (correctedDailyStock l sl horizon).sum,
     round3 (calcWastageRisk (correctedDailyStock l sl horizon) l sl),
     round2 (finalServiceLevel l sl horizon)⟩

/-- Lines 185-208: StockOptimizer._determine_stock_status. -/
def determineStockStatus (recommendedStock predictedDemand sl : ℚ) : String :=
  if predictedDemand = 0 then (if recommendedStock = 0 then "optimal" else "overstock")
  else
    let r := recommendedStock / predictedDemand
    let understockThreshold : ℚ := if sl ≤ 3 then 0.9 else if sl ≤ 7 then 0.85 else 0.8
    let overstockThreshold : ℚ := if sl ≤ 3 then 1.2 else if sl ≤ 7 then 1.3 else 1.4
    if r < understockThreshold then "understock"
    else if r > overstockThreshold then "overstock"
    else "optimal"

/-! ## Claim C4: stock-status classification -/

/-- C4: for predicted_demand = 0 the classifier returns optimal iff
recommended_stock = 0 and overstock otherwise; for predicted_demand > 0 the
ratio is compared strictly against the shelf-life-dependent thresholds
0.90/0.85/0.80 (understock) and 1.20/1.30/1.40 (overstock), so a ratio exactly
at a threshold, such as 17/20 = 0.85 with shelf life 5, is optimal. -/
theorem claim_C4 :
    (∀ rs sl : ℚ, determineStockStatus rs 0 sl = if rs = 0 then "optimal" else "overstock") ∧
    (∀ rs pd sl : ℚ, 0 < pd →
      determineStockStatus rs pd sl =
        (if rs / pd < (if sl ≤ 3 then (0.9 : ℚ) else if sl ≤ 7 then 0.85 else 0.8) then "understock"
         else if rs / pd > (if sl ≤ 3 then (1.2 : ℚ) else if sl ≤ 7 then 1.3 else 1.4) then "overstock"
         else "optimal")) ∧
    determineStockStatus 17 20 5 = "optimal" := by
  refine ⟨?_, ?_, ?_⟩
  · intro rs sl
    simp [determineStockStatus]
  · intro rs pd sl hpd
    simp only [determineStockStatus, if_neg hpd.ne']
  · norm_num [determineStockStatus]

/-- C4 witness: the positive-demand branch at recommended stock 1, demand 2,
shelf life 10 classifies as understock. -/
theorem claim_C4_witness : determineStockStatus 1 2 10 = "understock" := by
  have h := claim_C4.2.1 1 2 10 (by norm_num)
  rw [h]
  norm_num

/-! ## Claim C8: degenerate inputs return the zero allocation -/

/-- C8: for an empty demand series or a zero effective day count the allocator
returns daily_stock = [0.0], total_stock = 0, wastage_risk = 0 and
service_level = 0, for every shelf life and horizon. -/
theorem claim_C8 (l : List ℚ) (sl : ℚ) (horizon : ℕ)
    (h : nDays l horizon = 0 ∨ l = []) :
    optimizeSingleProduct l sl horizon = ⟨[0], 0, 0, 0⟩ := by
  have hn : nDays l horizon = 0 := by
    rcases h with h | h
    · exact h
    · simp [nDays, h]
  rw [optimizeSingleProduct, if_pos (Or.inl hn), hn]
  rfl

/-- C8 witness: the empty demand series with shelf life 5 and horizon 7. -/
theorem claim_C8_witness : optimizeSingleProduct [] 5 7 = ⟨[0], 0, 0, 0⟩ :=
  claim_C8 [] 5 7 (Or.inr rfl)

/-! ## Claim C5: the risk function on zero-total demand -/

/-- C5 counterexample: for an EMPTY demand series and daily stock [1] the risk
function returns 0.0 (the emptiness guard on line 161 fires first), not the
value 1.0 the claim predicts for a positive total stock. -/
theorem claim_C5_counterexample :
    ¬ (calcWastageRisk [1] [] 7 = if 0 < ([(1 : ℝ)]).sum then 1 else 0) := by
  have h1 : calcWastageRisk [1] [] 7 = 0 := by simp [calcWastageRisk]
  have h2 : (if 0 < ([(1 : ℝ)]).sum then (1 : ℝ) else 0) = 1 := by norm_num
  rw [h1, h2]
  norm_num

/-- C5 amended: for every NONEMPTY demand series of total zero the risk
function returns 1.0 when sum(daily_stock) > 0 and 0.0 otherwise; for an empty
demand series it returns 0.0 regardless of the stock. -/
theorem claim_C5_amended (stock : List ℝ) (demand : List ℚ) (sl : ℚ)
    (h1 : demand ≠ []) (h2 : demand.sum = 0) :
    calcWastageRisk stock demand sl = if 0 < stock.sum then 1 else 0 := by
  rcases eq_or_ne stock [] with hs | hs
  · subst hs
    simp [calcWastageRisk]
  · simp [calcWastageRisk, hs, h1, h2]

/-- C5 witness: daily stock [1] against the nonempty zero-total demand [0]. -/
theorem claim_C5_witness :
    calcWastageRisk [1] [0] 7 = if 0 < ([(1 : ℝ)]).sum then 1 else 0 :=
  claim_C5_amended [1] [0] 7 (by simp) (by simp)

/-! ## Support lemmas about the allocation pipeline -/

theorem rawDailyStock_nonneg (l : List ℚ) (sl : ℚ) (horizon : ℕ) :
    ∀ x ∈ rawDailyStock l sl horizon, 0 ≤ x := by
  intro x hx
  rw [rawDailyStock] at hx
  obtain ⟨d, _, rfl⟩ := List.mem_map.mp hx
  exact le_max_left _ _

theorem rawDailyStock_sum_nonneg (l : List ℚ) (sl : ℚ) (horizon : ℕ) :
    0 ≤ (rawDailyStock l sl horizon).sum :=
  List.sum_nonneg (rawDailyStock_nonneg l sl horizon)

theorem adjustmentFactor_nonneg (l : List ℚ) (sl : ℚ) (horizon : ℕ) :
    0 ≤ adjustmentFactor l sl horizon := by
  unfold adjustmentFactor
  have h1 : (0:ℝ) < max (preServiceLevel l sl horizon) 1 :=
    lt_of_lt_of_le one_pos (le_max_right _ _)
  positivity

theorem one_le_adjustmentFactor (l : List ℚ) (sl : ℚ) (horizon : ℕ)
    (h : preServiceLevel l sl horizon < 80) : 1 ≤ adjustmentFactor l sl horizon := by
  unfold adjustmentFactor
  have h1 : (0:ℝ) < max (preServiceLevel l sl horizon) 1 :=
    lt_of_lt_of_le one_pos (le_max_right _ _)
  rw [le_div_iff₀ h1, one_mul]
  exact max_le h.le (by norm_num)

theorem correctedDailyStock_nonneg (l : List ℚ) (sl : ℚ) (horizon : ℕ) :
    ∀ x ∈ correctedDailyStock l sl horizon, 0 ≤ x := by
  intro x hx
  rw [correctedDailyStock] at hx
  split_ifs at hx
  · obtain ⟨y, hy, rfl⟩ := List.mem_map.mp hx
    exact mul_nonneg (rawDailyStock_nonneg l sl horizon y hy) (adjustmentFactor_nonneg l sl horizon)
  · exact rawDailyStock_nonneg l sl horizon x hx

theorem correctedDailyStock_sum_nonneg (l : List ℚ) (sl : ℚ) (horizon : ℕ) :
    0 ≤ (correctedDailyStock l sl horizon).sum :=
  List.sum_nonneg (correctedDailyStock_nonneg l sl horizon)

theorem calcWastageRisk_nonneg (stock : List ℝ) (forecast : List ℚ) (sl : ℚ) :
    0 ≤ calcWastageRisk stock forecast sl := by
  unfold calcWastageRisk
  split_ifs with h1 h2 h3
  · exact le_refl 0
  · exact zero_le_one
  · exact le_refl 0
  · refine le_min zero_le_one ?_
    have ha : (0:ℝ) ≤ max 0 ((stock.sum - ((forecast.sum : ℚ) : ℝ)) / ((forecast.sum : ℚ) : ℝ)) :=
      le_max_left _ _
    have hb : (0:ℝ) ≤ max 0 ((14 - ((sl : ℚ) : ℝ)) / 14) := le_max_left _ _
    have hc : (0:ℝ) ≤ max 0 (((stock.length : ℝ) - ((sl : ℚ) : ℝ)) / max (stock.length : ℝ) 1) :=
      le_max_left _ _
    have h5 : (0:ℝ) ≤ (0.5:ℝ) := by norm_num
    have h3' : (0:ℝ) ≤ (0.3:ℝ) := by norm_num
    have h2' : (0:ℝ) ≤ (0.2:ℝ) := by norm_num
    exact add_nonneg (add_nonneg (mul_nonneg ha h5) (mul_nonneg hb h3')) (mul_nonneg hc h2')

theorem calcWastageRisk_le_one (stock : List ℝ) (forecast : List ℚ) (sl : ℚ) :
    calcWastageRisk stock forecast sl ≤ 1 := by
  unfold calcWastageRisk
  split_ifs with h1 h2 h3
  · exact zero_le_one
  · exact le_refl 1
  · exact zero_le_one
  · exact min_le_left _ _

theorem preServiceLevel_nonneg (l : List ℚ) (sl : ℚ) (horizon : ℕ) :
    0 ≤ preServiceLevel l sl horizon := by
  unfold preServiceLevel
  refine le_min (by norm_num) ?_
  have hD : (0:ℝ) < max ((l.sum : ℚ) : ℝ) 1 := lt_of_lt_of_le one_pos (le_max_right _ _)
  have := rawDailyStock_sum_nonneg l sl horizon
  positivity

theorem preServiceLevel_le (l : List ℚ) (sl : ℚ) (horizon : ℕ) :
    preServiceLevel l sl horizon ≤ 100 := min_le_left _ _

theorem finalServiceLevel_nonneg (l : List ℚ) (sl : ℚ) (horizon : ℕ) :
    0 ≤ finalServiceLevel l sl horizon := by
  unfold finalServiceLevel
  split_ifs
  · refine le_min (by norm_num) ?_
    have hD : (0:ℝ) < max ((l.sum : ℚ) : ℝ) 1 := lt_of_lt_of_le one_pos (le_max_right _ _)
    have := correctedDailyStock_sum_nonneg l sl horizon
    positivity
  · exact preServiceLevel_nonneg l sl horizon

theorem finalServiceLevel_le (l : List ℚ) (sl : ℚ) (horizon : ℕ) :
    finalServiceLevel l sl horizon ≤ 100 := by
  unfold finalServiceLevel
  split_ifs
  · exact min_le_left _ _
  · exact preServiceLevel_le l sl horizon

/-! ## Claim C3: range invariants of wastage risk and service level -/

/-- C3: the returned wastage_risk is in [0, 1] and the returned service_level
is in [0, 100], and this also holds before the correction pass: the
pre-correction service level is in [0, 100] and the risk computed on the
pre-correction allocation is in [0, 1] — for every input whatsoever. -/
theorem claim_C3 (l : List ℚ) (sl : ℚ) (horizon : ℕ) :
    (0 ≤ (optimizeSingleProduct l sl horizon).wastage_risk ∧
     (optimizeSingleProduct l sl horizon).wastage_risk ≤ 1) ∧
    (0 ≤ (optimizeSingleProduct l sl horizon).service_level ∧
     (optimizeSingleProduct l sl horizon).service_level ≤ 100) ∧
    (0 ≤ preServiceLevel l sl horizon ∧ preServiceLevel l sl horizon ≤ 100) ∧
    (0 ≤ calcWastageRisk (rawDailyStock l sl horizon) l sl ∧
     calcWastageRisk (rawDailyStock l sl horizon) l sl ≤ 1) := by
  refine ⟨?_, ?_, ⟨preServiceLevel_nonneg l sl horizon, preServiceLevel_le l sl horizon⟩,
    ⟨calcWastageRisk_nonneg _ l sl, calcWastageRisk_le_one _ l sl⟩⟩ <;>
    rw [optimizeSingleProduct] <;> split_ifs
  · exact ⟨le_refl 0, zero_le_one⟩
  · exact ⟨round3_nonneg (calcWastageRisk_nonneg _ l sl),
      round3_le_one (calcWastageRisk_le_one _ l sl)⟩
  · exact ⟨le_refl 0, by norm_num⟩
  · exact ⟨round2_nonneg (finalServiceLevel_nonneg l sl horizon),
      round2_le_one_hundred (finalServiceLevel_le l sl horizon)⟩

/-! ## Claim C10: the correction pass never reduces stock -/

theorem sum_map_mul_const (L : List ℝ) (c : ℝ) : (L.map (fun s => s * c)).sum = L.sum * c := by
  induction L with
  | nil => simp
  | cons a t ih =>
    simp only [List.map_cons, List.sum_cons, ih]
    ring

/-- C10: whenever the correction pass triggers (pre-correction service level
below 80) the scaling factor 80 / max(service_level, 1) is at least 1, every
corrected daily stock entry dominates its pre-correction value, and the
corrected total dominates the pre-correction total. -/
theorem claim_C10 (l : List ℚ) (sl : ℚ) (horizon : ℕ)
    (hcorr : preServiceLevel l sl horizon < 80) :
    1 ≤ adjustmentFactor l sl horizon ∧
    List.Forall₂ (fun a b => a ≤ b) (rawDailyStock l sl horizon) (correctedDailyStock l sl horizon) ∧
    (rawDailyStock l sl horizon).sum ≤ (correctedDailyStock l sl horizon).sum := by
  have hadj := one_le_adjustmentFactor l sl horizon hcorr
  refine ⟨hadj, ?_, ?_⟩
  · rw [correctedDailyStock, if_pos hcorr]
    rw [List.forall₂_map_right_iff]
    rw [List.forall₂_same]
    intro x hx
    exact le_mul_of_one_le_right (rawDailyStock_nonneg l sl horizon x hx) hadj
  · rw [correctedDailyStock, if_pos hcorr, sum_map_mul_const]
    exact le_mul_of_one_le_right (rawDailyStock_sum_nonneg l sl horizon) hadj

/-! ## Unfolding and evaluation helpers -/

theorem optimizeSingleProduct_pos (l : List ℚ) (sl : ℚ) (horizon : ℕ)
    (h1 : nDays l horizon ≠ 0) :
    optimizeSingleProduct l sl horizon =
      ⟨(correctedDailyStock l sl horizon).map round2,
       round2 (correctedDailyStock l sl horizon).sum,
       round3 (calcWastageRisk (correctedDailyStock l sl horizon) l sl),
       round2 (finalServiceLevel l sl horizon)⟩ := by
  rw [optimizeSingleProduct, if_neg]
  push_neg
  refine ⟨h1, ?_⟩
  intro he
  exact h1 (by simp [nDays, he])

theorem mean_replicate (n : ℕ) (c : ℚ) (hn : n ≠ 0) : mean (List.replicate n c) = c := by
  rw [mean, List.sum_replicate, List.length_replicate, nsmul_eq_mul]
  exact mul_div_cancel_left₀ c (Nat.cast_ne_zero.mpr hn)

theorem popVar_replicate (n : ℕ) (c : ℚ) (hn : n ≠ 0) : popVar (List.replicate n c) = 0 := by
  rw [popVar, mean_replicate n c hn, List.map_replicate]
  simp

theorem demandStd_replicate (n : ℕ) (c : ℚ) (hn : 1 < n) : demandStd (List.replicate n c) = 0 := by
  rw [demandStd, if_pos (by simpa using hn), popVar_replicate n c (by omega)]
  simp

theorem safetyStockFactor_replicate (n : ℕ) (c : ℚ) (hn : 1 < n) :
    safetyStockFactor (List.replicate n c) = 0 := by
  rw [safetyStockFactor, demandStd_replicate n c hn, zero_div]
  exact min_eq_right (by norm_num)

theorem baseStockAdj_replicate (n : ℕ) (c : ℚ) (d : ℕ) (hd : d < n) (hc : 0 ≤ c) :
    baseStockAdj (List.replicate n c) d = c := by
  have hget : (List.replicate n c).getD d (mean (List.replicate n c)) = c := by
    rw [List.getD_eq_getElem _ _ (by simpa using hd), List.getElem_replicate]
  rw [baseStockAdj, if_pos (by simpa using hd), hget,
    mean_replicate n c (by omega), if_neg (by linarith), if_neg (by linarith)]

theorem dayStock_replicate (n : ℕ) (c sl : ℚ) (d : ℕ) (hn : 1 < n) (hd : d < n) (hc : 0 ≤ c) :
    dayStock (List.replicate n c) sl d = max 0 (round2 ((c : ℚ) : ℝ)) := by
  rw [dayStock, safetyStockFactor_replicate n c hn, baseStockAdj_replicate n c d hd hc]
  simp

theorem rawDailyStock_replicate (n : ℕ) (c sl : ℚ) (horizon : ℕ)
    (hn : 1 < n) (hc : 0 ≤ c) (hh : horizon ≤ n) :
    rawDailyStock (List.replicate n c) sl horizon =
      List.replicate horizon (max 0 (round2 ((c : ℚ) : ℝ))) := by
  rw [rawDailyStock, nDays, List.length_replicate, min_eq_left hh]
  rw [List.map_congr_left (fun d hd =>
    dayStock_replicate n c sl d hn (lt_of_lt_of_le (List.mem_range.mp hd) hh) hc)]
  rw [List.map_const', List.length_range]

/-! ## Claim C2: total_stock versus the sum of daily stocks -/

theorem sum_map_round2_bound (L : List ℝ) :
    |(L.map round2).sum - L.sum| ≤ (L.length : ℝ) / 200 := by
  induction L with
  | nil => simp
  | cons a t ih =>
    simp only [List.map_cons, List.sum_cons, List.length_cons]
    have h1 := abs_round2_sub a
    have h2 : round2 a + (t.map round2).sum - (a + t.sum) =
        (round2 a - a) + ((t.map round2).sum - t.sum) := by ring
    have key : |round2 a + (t.map round2).sum - (a + t.sum)| ≤ 1 / 200 + (t.length : ℝ) / 200 := by
      rw [h2]
      exact (abs_add _ _).trans (add_le_add h1 ih)
    have hc : ((t.length + 1 : ℕ) : ℝ) = (t.length : ℝ) + 1 := by push_cast; ring
    rw [hc]
    linarith

/-- C2 counterexample: for the constant demand series of fourteen days of 0.41
with shelf life 7 and horizon 7 the correction pass scales the stocks by 1.6,
and after the final roundings the returned total_stock is 4.59 while the
returned daily stocks sum to 4.62 — a discrepancy of 0.03, beyond the claimed
0.01 tolerance. -/
theorem claim_C2_counterexample :
    ¬ (|(optimizeSingleProduct (List.replicate 14 (41/100)) 7 7).total_stock -
        (optimizeSingleProduct (List.replicate 14 (41/100)) 7 7).daily_stock.sum| ≤ 1 / 100) := by
  have hcast : (((41:ℚ)/100 : ℚ) : ℝ) = 41 / 100 := by norm_num
  have hr1 : round2 (((41:ℚ)/100 : ℚ) : ℝ) = 41 / 100 := by
    rw [hcast]
    have := round2_eq_of (x := (41:ℝ)/100) (k := 41) (by norm_num) (by norm_num)
    rw [this]
    norm_num
  have hmax1 : max (0:ℝ) (41/100) = 41/100 := max_eq_right (by norm_num)
  have hraw : rawDailyStock (List.replicate 14 (41/100)) 7 7 = List.replicate 7 (41/100 : ℝ) := by
    rw [rawDailyStock_replicate 14 (41/100) 7 7 (by norm_num) (by norm_num) (by norm_num)]
    rw [hr1, hmax1]
  have hsumL : ((List.replicate 14 ((41:ℚ)/100)).sum : ℚ) = 287/50 := by
    rw [List.sum_replicate, nsmul_eq_mul]
    norm_num
  have hsumraw : (List.replicate 7 ((41:ℝ)/100)).sum = 287/100 := by
    rw [List.sum_replicate, nsmul_eq_mul]
    norm_num
  have hpre : preServiceLevel (List.replicate 14 (41/100)) 7 7 = 50 := by
    rw [preServiceLevel, hraw, hsumraw, hsumL]
    rw [show (((287:ℚ)/50 : ℚ) : ℝ) = 287/50 by norm_num]
    rw [max_eq_left (by norm_num : (1:ℝ) ≤ 287/50)]
    rw [min_eq_right (by norm_num)]
    norm_num
  have hadj : adjustmentFactor (List.replicate 14 (41/100)) 7 7 = 8/5 := by
    rw [adjustmentFactor, hpre, max_eq_left (by norm_num : (1:ℝ) ≤ 50)]
    norm_num
  have hcorr : correctedDailyStock (List.replicate 14 (41/100)) 7 7 =
      List.replicate 7 (82/125 : ℝ) := by
    rw [correctedDailyStock, if_pos (by rw [hpre]; norm_num), hraw, hadj, List.map_replicate]
    norm_num
  have hsumcorr : (List.replicate 7 ((82:ℝ)/125)).sum = 574/125 := by
    rw [List.sum_replicate, nsmul_eq_mul]
    norm_num
  have hr2 : round2 ((82:ℝ)/125) = 33/50 := by
    have := round2_eq_of (x := (82:ℝ)/125) (k := 66) (by norm_num) (by norm_num)
    rw [this]
    norm_num
  have hr3 : round2 ((574:ℝ)/125) = 459/100 := by
    have := round2_eq_of (x := (574:ℝ)/125) (k := 459) (by norm_num) (by norm_num)
    rw [this]
    norm_num
  rw [optimizeSingleProduct_pos _ _ _ (by norm_num [nDays])]
  dsimp only
  rw [hcorr, hsumcorr, hr3, List.map_replicate, hr2]
  rw [List.sum_replicate, nsmul_eq_mul]
  intro habs
  rw [abs_le] at habs
  have := habs.1
  norm_num at this

/-- C2 amended: the returned total_stock always agrees with the sum of the
returned daily stocks up to the accumulated rounding slack of half a cent per
entry plus half a cent for the total, i.e. (n+1)/200 for n daily entries; when
the correction pass does not run the agreement is exact, but after a
correction the claimed fixed 0.01 tolerance can be exceeded. -/
theorem claim_C2_amended (l : List ℚ) (sl : ℚ) (horizon : ℕ) :
    |(optimizeSingleProduct l sl horizon).total_stock -
      (optimizeSingleProduct l sl horizon).daily_stock.sum| ≤
      (((optimizeSingleProduct l sl horizon).daily_stock.length : ℝ) + 1) / 200 := by
  rw [optimizeSingleProduct]
  split_ifs with h
  · simp
    positivity
  · dsimp only
    have h1 := abs_round2_sub (correctedDailyStock l sl horizon).sum
    have h2 := sum_map_round2_bound (correctedDailyStock l sl horizon)
    rw [List.length_map]
    have h3 : round2 (correctedDailyStock l sl horizon).sum -
        ((correctedDailyStock l sl horizon).map round2).sum =
        (round2 (correctedDailyStock l sl horizon).sum - (correctedDailyStock l sl horizon).sum) +
        ((correctedDailyStock l sl horizon).sum -
          ((correctedDailyStock l sl horizon).map round2).sum) := by ring
    have h4 := abs_add
      (round2 (correctedDailyStock l sl horizon).sum - (correctedDailyStock l sl horizon).sum)
      ((correctedDailyStock l sl horizon).sum - ((correctedDailyStock l sl horizon).map round2).sum)
    rw [← h3] at h4
    rw [abs_sub_comm (correctedDailyStock l sl horizon).sum] at h4
    linarith

/-! ## Singleton-series evaluation helpers -/

theorem mean_singleton (t : ℚ) : mean [t] = t := by
  simp [mean]

theorem demandStd_singleton (t : ℚ) : demandStd [t] = ((t : ℚ) : ℝ) * 0.2 := by
  rw [demandStd, if_neg (by simp), mean_singleton]

theorem baseStockAdj_singleton (t : ℚ) (h0 : 0 ≤ t) : baseStockAdj [t] 0 = t := by
  rw [baseStockAdj, if_pos (by simp), mean_singleton]
  simp only [List.getD_cons_zero]
  rw [if_neg (by linarith), if_neg (by linarith)]

theorem rawDailyStock_singleton (t sl : ℚ) (horizon : ℕ) (hh : 1 ≤ horizon) :
    rawDailyStock [t] sl horizon = [dayStock [t] sl 0] := by
  rw [rawDailyStock, nDays]
  have : min horizon ([t] : List ℚ).length = 1 := by
    simp [min_eq_right hh]
  rw [this]
  rfl

theorem calcWastageRisk_eval (stock : List ℝ) (forecast : List ℚ) (sl : ℚ)
    (h1 : stock ≠ []) (h2 : forecast ≠ []) (h3 : (forecast.sum : ℚ) ≠ 0) :
    calcWastageRisk stock forecast sl =
      min 1 (max 0 ((stock.sum - ((forecast.sum : ℚ) : ℝ)) / ((forecast.sum : ℚ) : ℝ)) * 0.5 +
        max 0 ((14 - ((sl : ℚ) : ℝ)) / 14) * 0.3 +
        max 0 (((stock.length : ℝ) - ((sl : ℚ) : ℝ)) / max (stock.length : ℝ) 1) * 0.2) := by
  rw [calcWastageRisk, if_neg (by simp [h1, h2]), if_neg h3]

/-! ## Claim C7: shelf-life sensitivity of the wastage risk -/

theorem calcWastageRisk_anti (stock : List ℝ) (forecast : List ℚ) (sl1 sl2 : ℚ)
    (h : sl1 ≤ sl2) :
    calcWastageRisk stock forecast sl2 ≤ calcWastageRisk stock forecast sl1 := by
  rw [calcWastageRisk, calcWastageRisk]
  split_ifs with h1 h2 h3
  · exact le_rfl
  · exact le_rfl
  · exact le_rfl
  · refine min_le_min le_rfl ?_
    have hc : ((sl1 : ℚ) : ℝ) ≤ ((sl2 : ℚ) : ℝ) := by exact_mod_cast h
    have hm : (0:ℝ) < max (stock.length : ℝ) 1 := lt_of_lt_of_le one_pos (le_max_right _ _)
    refine add_le_add (add_le_add le_rfl ?_) ?_
    · refine mul_le_mul_of_nonneg_right (max_le_max le_rfl ?_) (by norm_num)
      exact (div_le_div_iff_of_pos_right (by norm_num)).mpr (by linarith)
    · refine mul_le_mul_of_nonneg_right (max_le_max le_rfl ?_) (by norm_num)
      exact (div_le_div_iff_of_pos_right hm).mpr (by linarith)

theorem dayStock_of_ssf_zero (l : List ℚ) (sl1 sl2 : ℚ) (d : ℕ)
    (h : safetyStockFactor l = 0) : dayStock l sl1 d = dayStock l sl2 d := by
  rw [dayStock, dayStock, h]
  simp

theorem rawDailyStock_of_ssf_zero (l : List ℚ) (sl1 sl2 : ℚ) (horizon : ℕ)
    (h : safetyStockFactor l = 0) :
    rawDailyStock l sl1 horizon = rawDailyStock l sl2 horizon := by
  rw [rawDailyStock, rawDailyStock]
  exact List.map_congr_left (fun d _ => dayStock_of_ssf_zero l sl1 sl2 d h)

theorem preServiceLevel_of_ssf_zero (l : List ℚ) (sl1 sl2 : ℚ) (horizon : ℕ)
    (h : safetyStockFactor l = 0) :
    preServiceLevel l sl1 horizon = preServiceLevel l sl2 horizon := by
  rw [preServiceLevel, preServiceLevel, rawDailyStock_of_ssf_zero l sl1 sl2 horizon h]

theorem correctedDailyStock_of_ssf_zero (l : List ℚ) (sl1 sl2 : ℚ) (horizon : ℕ)
    (h : safetyStockFactor l = 0) :
    correctedDailyStock l sl1 horizon = correctedDailyStock l sl2 horizon := by
  rw [correctedDailyStock, correctedDailyStock, adjustmentFactor, adjustmentFactor,
    preServiceLevel_of_ssf_zero l sl1 sl2 horizon h, rawDailyStock_of_ssf_zero l sl1 sl2 horizon h]

/-- C7 amended: whenever the computed safety-stock factor is zero — in
particular for every constant demand series of length at least two — the
returned wastage risk is antitone in the shelf life, so shelf life 3 yields a
risk at least that of shelf life 30; and the strict scenario holds: for the
constant series of seven days of 100 with horizon 7, shelf life 2 yields a
strictly greater wastage risk than shelf life 30.  (For series with a nonzero
safety-stock factor the general inequality can fail, see the counterexample.) -/
theorem claim_C7_amended :
    (∀ (l : List ℚ) (sl1 sl2 : ℚ) (horizon : ℕ), sl1 ≤ sl2 → safetyStockFactor l = 0 →
      (optimizeSingleProduct l sl2 horizon).wastage_risk ≤
        (optimizeSingleProduct l sl1 horizon).wastage_risk) ∧
    (∀ (n : ℕ) (c : ℚ), 1 < n → safetyStockFactor (List.replicate n c) = 0) ∧
    (optimizeSingleProduct (List.replicate 7 100) 30 7).wastage_risk <
      (optimizeSingleProduct (List.replicate 7 100) 2 7).wastage_risk := by
  refine ⟨?_, fun n c hn => safetyStockFactor_replicate n c hn, ?_⟩
  · intro l sl1 sl2 horizon hsl hssf
    by_cases hn : nDays l horizon = 0 ∨ l = []
    · rw [optimizeSingleProduct, if_pos hn, optimizeSingleProduct, if_pos hn]
    · rw [optimizeSingleProduct, if_neg hn, optimizeSingleProduct, if_neg hn]
      dsimp only
      rw [correctedDailyStock_of_ssf_zero l sl2 sl1 horizon hssf]
      exact round3_mono (calcWastageRisk_anti _ l sl1 sl2 hsl)
  · have hcast : (((100:ℚ) : ℚ) : ℝ) = 100 := by norm_num
    have hr100 : round2 (((100:ℚ) : ℚ) : ℝ) = 100 := by
      rw [hcast]
      have := round2_eq_of (x := (100:ℝ)) (k := 10000) (by norm_num) (by norm_num)
      rw [this]
      norm_num
    have hraw : ∀ sl : ℚ, rawDailyStock (List.replicate 7 100) sl 7 =
        List.replicate 7 (100 : ℝ) := by
      intro sl
      rw [rawDailyStock_replicate 7 100 sl 7 (by norm_num) (by norm_num) (by norm_num)]
      rw [hr100, max_eq_right (by norm_num : (0:ℝ) ≤ 100)]
    have hsumL : ((List.replicate 7 (100:ℚ)).sum : ℚ) = 700 := by
      rw [List.sum_replicate, nsmul_eq_mul]
      norm_num
    have hsumR : (List.replicate 7 (100:ℝ)).sum = 700 := by
      rw [List.sum_replicate, nsmul_eq_mul]
      norm_num
    have hpre : ∀ sl : ℚ, preServiceLevel (List.replicate 7 100) sl 7 = 100 := by
      intro sl
      rw [preServiceLevel, hraw sl, hsumR, hsumL]
      rw [show (((700:ℚ) : ℚ) : ℝ) = 700 by norm_num]
      rw [max_eq_left (by norm_num : (1:ℝ) ≤ 700)]
      norm_num
    have hcorr : ∀ sl : ℚ, correctedDailyStock (List.replicate 7 100) sl 7 =
        List.replicate 7 (100 : ℝ) := by
      intro sl
      rw [correctedDailyStock, if_neg (by rw [hpre sl]; norm_num), hraw sl]
    have hlen : ((List.replicate 7 (100:ℝ)).length : ℝ) = 7 := by simp
    have hrisk30 : calcWastageRisk (List.replicate 7 (100:ℝ)) (List.replicate 7 (100:ℚ)) 30 = 0 := by
      rw [calcWastageRisk_eval _ _ _ (by simp) (by simp) (by rw [hsumL]; norm_num)]
      rw [hsumL, hsumR, hlen]
      rw [show (((700:ℚ) : ℚ) : ℝ) = 700 by norm_num]
      rw [show (((30:ℚ) : ℚ) : ℝ) = 30 by norm_num]
      rw [max_eq_left (by norm_num : (1:ℝ) ≤ 7)]
      rw [show ((700:ℝ) - 700) / 700 = 0 by norm_num, max_self]
      rw [max_eq_left (by norm_num : ((14:ℝ) - 30) / 14 ≤ 0)]
      rw [max_eq_left (by norm_num : ((7:ℝ) - 30) / 7 ≤ 0)]
      rw [min_eq_right (by norm_num)]
      norm_num
    have hrisk2 : calcWastageRisk (List.replicate 7 (100:ℝ)) (List.replicate 7 (100:ℚ)) 2 = 2/5 := by
      rw [calcWastageRisk_eval _ _ _ (by simp) (by simp) (by rw [hsumL]; norm_num)]
      rw [hsumL, hsumR, hlen]
      rw [show (((700:ℚ) : ℚ) : ℝ) = 700 by norm_num]
      rw [show (((2:ℚ) : ℚ) : ℝ) = 2 by norm_num]
      rw [max_eq_left (by norm_num : (1:ℝ) ≤ 7)]
      rw [show ((700:ℝ) - 700) / 700 = 0 by norm_num, max_self]
      rw [max_eq_right (by norm_num : (0:ℝ) ≤ ((14:ℝ) - 2) / 14)]
      rw [max_eq_right (by norm_num : (0:ℝ) ≤ ((7:ℝ) - 2) / 7)]
      rw [min_eq_right (by norm_num)]
      norm_num
    rw [optimizeSingleProduct_pos _ _ _ (by norm_num [nDays]),
      optimizeSingleProduct_pos _ _ _ (by norm_num [nDays])]
    dsimp only
    rw [hcorr 30, hcorr 2, hrisk30, hrisk2, round3_zero]
    have : round3 (2/5) = 2/5 := by
      have := round3_eq_of (x := (2:ℝ)/5) (k := 400) (by norm_num) (by norm_num)
      rw [this]
      norm_num
    rw [this]
    norm_num

theorem shelfLifeFactor_thirty : shelfLifeFactor 30 = 1 := by
  rw [shelfLifeFactor, show (30:ℚ)/30 = 1 by norm_num, min_self]
  exact max_eq_right (by norm_num)

theorem shelfLifeFactor_three : shelfLifeFactor 3 = 0.1 := by
  rw [shelfLifeFactor, show min (1:ℚ) (3/30) = 0.1 by rw [min_eq_right (by norm_num)]; norm_num,
    max_self]

theorem safetyStockFactor_singleton (t : ℚ) (h0 : 0 ≤ t) (h1 : t ≤ 1) :
    safetyStockFactor [t] = ((t : ℚ) : ℝ) * 0.2 := by
  rw [safetyStockFactor, demandStd_singleton, mean_singleton]
  have ht1 : ((t : ℚ) : ℝ) ≤ 1 := by exact_mod_cast h1
  have ht0 : (0:ℝ) ≤ ((t : ℚ) : ℝ) := by exact_mod_cast h0
  rw [max_eq_right ht1, div_one]
  exact min_eq_right (by nlinarith)

theorem dayStock_singleton (t sl : ℚ) (h0 : 0 ≤ t) (h1 : t ≤ 1) :
    dayStock [t] sl 0 =
      max 0 (round2 (((t : ℚ) : ℝ) +
        ((t : ℚ) : ℝ) * (((t : ℚ) : ℝ) * 0.2) * ((shelfLifeFactor sl : ℚ) : ℝ))) := by
  rw [dayStock, baseStockAdj_singleton t h0, safetyStockFactor_singleton t h0 h1]
  simp only [List.getD_cons_zero]

/-- C7 counterexample: for the single-day demand series [0.004996] with
horizon 1, shelf life 30 rounds the day stock up to 0.01 while shelf life 3
rounds it down to 0; the correction pass then freezes at factor 80, the
shelf-life-30 run ends with stock 0.8 against demand 0.004996 (risk clamped to
1.0) while the shelf-life-3 run ends with zero stock (risk 0.236), so the risk
at shelf life 3 is strictly SMALLER than at shelf life 30, refuting the
claimed inequality. -/
theorem claim_C7_counterexample :
    (optimizeSingleProduct [1249/250000] 3 1).wastage_risk <
      (optimizeSingleProduct [1249/250000] 30 1).wastage_risk := by
  have hd : (((1249:ℚ)/250000 : ℚ) : ℝ) = 1249/250000 := by norm_num
  have hd0 : (0:ℚ) ≤ 1249/250000 := by norm_num
  have hd1 : (1249:ℚ)/250000 ≤ 1 := by norm_num
  -- the shelf-life-30 run
  have e30 : dayStock [1249/250000] 30 0 = 1/100 := by
    rw [dayStock_singleton _ _ hd0 hd1, shelfLifeFactor_thirty, hd]
    rw [show (((1:ℚ) : ℚ) : ℝ) = 1 by norm_num]
    rw [round2_eq_of (x := (1249:ℝ)/250000 + 1249/250000 * (1249/250000 * 0.2) * 1) (k := 1)
      (by norm_num) (by norm_num)]
    rw [max_eq_right (by norm_num)]
    norm_num
  have raw30 : rawDailyStock [1249/250000] 30 1 = [1/100] := by
    rw [rawDailyStock_singleton _ _ _ le_rfl, e30]
  have hsumq : (([(1249:ℚ)/250000] : List ℚ).sum : ℚ) = 1249/250000 := by simp
  have pre30 : preServiceLevel [1249/250000] 30 1 = 1 := by
    rw [preServiceLevel, raw30, hsumq, hd]
    rw [max_eq_right (by norm_num : (1249:ℝ)/250000 ≤ 1)]
    rw [min_eq_right (by norm_num)]
    norm_num
  have adj30 : adjustmentFactor [1249/250000] 30 1 = 80 := by
    rw [adjustmentFactor, pre30, max_self]
    norm_num
  have corr30 : correctedDailyStock [1249/250000] 30 1 = [4/5] := by
    rw [correctedDailyStock, if_pos (by rw [pre30]; norm_num), raw30, adj30]
    norm_num
  have risk30 : calcWastageRisk [(4:ℝ)/5] [1249/250000] 30 = 1 := by
    rw [calcWastageRisk_eval _ _ _ (by simp) (by simp) (by rw [hsumq]; norm_num)]
    rw [hsumq, hd]
    rw [show (((30:ℚ) : ℚ) : ℝ) = 30 by norm_num]
    simp only [List.sum_cons, List.sum_nil, add_zero, List.length_singleton, Nat.cast_one]
    rw [max_self (1:ℝ)]
    rw [show max (0:ℝ) (((4:ℝ)/5 - 1249/250000) / (1249/250000)) =
        ((4:ℝ)/5 - 1249/250000) / (1249/250000) from max_eq_right (by norm_num)]
    rw [show max (0:ℝ) (((14:ℝ) - 30) / 14) = 0 from max_eq_left (by norm_num)]
    rw [show max (0:ℝ) (((1:ℝ) - 30) / 1) = 0 from max_eq_left (by norm_num)]
    rw [min_eq_left (by norm_num)]
  have w30 : (optimizeSingleProduct [1249/250000] 30 1).wastage_risk = 1 := by
    rw [optimizeSingleProduct_pos _ _ _ (by norm_num [nDays])]
    dsimp only
    rw [corr30, risk30]
    rw [round3_eq_of (x := (1:ℝ)) (k := 1000) (by norm_num) (by norm_num)]
    norm_num
  -- the shelf-life-3 run
  have e3 : dayStock [1249/250000] 3 0 = 0 := by
    rw [dayStock_singleton _ _ hd0 hd1, shelfLifeFactor_three, hd]
    rw [show (((0.1:ℚ) : ℚ) : ℝ) = 0.1 by norm_num]
    rw [round2_eq_of (x := (1249:ℝ)/250000 + 1249/250000 * (1249/250000 * 0.2) * 0.1) (k := 0)
      (by norm_num) (by norm_num)]
    norm_num
  have raw3 : rawDailyStock [1249/250000] 3 1 = [0] := by
    rw [rawDailyStock_singleton _ _ _ le_rfl, e3]
  have pre3 : preServiceLevel [1249/250000] 3 1 = 0 := by
    rw [preServiceLevel, raw3, hsumq, hd]
    rw [max_eq_right (by norm_num : (1249:ℝ)/250000 ≤ 1)]
    rw [min_eq_right (by norm_num)]
    norm_num
  have adj3 : adjustmentFactor [1249/250000] 3 1 = 80 := by
    rw [adjustmentFactor, pre3, max_eq_right (by norm_num : (0:ℝ) ≤ 1)]
    norm_num
  have corr3 : correctedDailyStock [1249/250000] 3 1 = [0] := by
    rw [correctedDailyStock, if_pos (by rw [pre3]; norm_num), raw3, adj3]
    norm_num
  have risk3 : calcWastageRisk [(0:ℝ)] [1249/250000] 3 = 33/140 := by
    rw [calcWastageRisk_eval _ _ _ (by simp) (by simp) (by rw [hsumq]; norm_num)]
    rw [hsumq, hd]
    rw [show (((3:ℚ) : ℚ) : ℝ) = 3 by norm_num]
    simp only [List.sum_cons, List.sum_nil, add_zero, List.length_singleton, Nat.cast_one]
    rw [max_self (1:ℝ)]
    rw [show max (0:ℝ) (((0:ℝ) - 1249/250000) / (1249/250000)) = 0 from
      max_eq_left (by norm_num)]
    rw [show max (0:ℝ) (((14:ℝ) - 3) / 14) = ((14:ℝ) - 3) / 14 from max_eq_right (by norm_num)]
    rw [show max (0:ℝ) (((1:ℝ) - 3) / 1) = 0 from max_eq_left (by norm_num)]
    rw [min_eq_right (by norm_num)]
    norm_num
  have w3 : (optimizeSingleProduct [1249/250000] 3 1).wastage_risk = 59/250 := by
    rw [optimizeSingleProduct_pos _ _ _ (by norm_num [nDays])]
    dsimp only
    rw [corr3, risk3]
    rw [round3_eq_of (x := (33:ℝ)/140) (k := 236) (by norm_num) (by norm_num)]
    norm_num
  rw [w3, w30]
  norm_num

/-- C7 witness: the antitone part applied to the constant two-day series of
demand 5 with horizon 3, comparing shelf lives 3 and 30. -/
theorem claim_C7_witness :
    (optimizeSingleProduct (List.replicate 2 5) 30 3).wastage_risk ≤
      (optimizeSingleProduct (List.replicate 2 5) 3 3).wastage_risk :=
  claim_C7_amended.1 (List.replicate 2 5) 3 30 3 (by norm_num)
    (claim_C7_amended.2.1 2 5 (by norm_num))

/-! ## Claim C1: the per-day stock formula -/

/-- The per-day stock as worded by step 5 of the spec (§4.1): there the safety
stock is computed from the ALREADY adjusted base stock ("safety_stock =
base_stock * safety_stock_factor * shelf_life_factor" after the 1.1/0.9
multiplication), unlike the source, which computes it before the adjustment. -/
noncomputable def specStep5DayStock (l : List ℚ) (sl : ℚ) (day : ℕ) : ℝ :=
  max 0 (round2 (((baseStockAdj l day : ℚ) : ℝ) +
    ((baseStockAdj l day : ℚ) : ℝ) * safetyStockFactor l * ((shelfLifeFactor sl : ℚ) : ℝ)))

theorem mean_ten_one : mean [10, 1] = 11/2 := by
  norm_num [mean, List.sum_cons, List.sum_nil]

theorem demandStd_ten_one : demandStd [10, 1] = 9/2 := by
  rw [demandStd, if_pos (by norm_num)]
  have hv : popVar [10, 1] = 81/4 := by
    norm_num [popVar, mean_ten_one, List.sum_cons, List.sum_nil]
  rw [hv, show (((81:ℚ)/4 : ℚ) : ℝ) = ((9:ℝ)/2) ^ 2 by norm_num]
  exact Real.sqrt_sq (by norm_num)

theorem safetyStockFactor_ten_one : safetyStockFactor [10, 1] = 1/2 := by
  rw [safetyStockFactor, demandStd_ten_one, mean_ten_one]
  rw [show (((11:ℚ)/2 : ℚ) : ℝ) = 11/2 by norm_num]
  rw [max_eq_left (by norm_num : (1:ℝ) ≤ 11/2)]
  rw [min_eq_left (by norm_num)]
  norm_num

theorem dayStock_ten_one_zero : dayStock [10, 1] 30 0 = 16 := by
  have hbase : baseStockAdj [10, 1] 0 = 11 := by
    rw [baseStockAdj, if_pos (by norm_num)]
    simp only [List.getD_cons_zero]
    rw [mean_ten_one, if_pos (by norm_num : (10:ℚ) > 11/2 * 1.2)]
    norm_num
  rw [dayStock, hbase, safetyStockFactor_ten_one, shelfLifeFactor_thirty]
  simp only [List.getD_cons_zero]
  rw [show (((11:ℚ) : ℚ) : ℝ) = 11 by norm_num, show (((10:ℚ) : ℚ) : ℝ) = 10 by norm_num,
    show (((1:ℚ) : ℚ) : ℝ) = 1 by norm_num]
  rw [round2_eq_of (x := (11:ℝ) + 10 * (1/2) * 1) (k := 1600) (by norm_num) (by norm_num)]
  rw [max_eq_right (by norm_num)]
  norm_num

theorem dayStock_ten_one_one : dayStock [10, 1] 30 1 = 7/5 := by
  have hget : ([10, 1] : List ℚ).getD 1 (mean [10, 1]) = 1 := by
    simp [List.getD]
  have hbase : baseStockAdj [10, 1] 1 = 9/10 := by
    rw [baseStockAdj, if_pos (by norm_num), hget, mean_ten_one,
      if_neg (by norm_num), if_pos (by norm_num : (1:ℚ) < 11/2 * 0.8)]
    norm_num
  rw [dayStock, hbase, hget, safetyStockFactor_ten_one, shelfLifeFactor_thirty]
  rw [show (((9:ℚ)/10 : ℚ) : ℝ) = 9/10 by norm_num, show (((1:ℚ) : ℚ) : ℝ) = 1 by norm_num]
  rw [round2_eq_of (x := (9:ℝ)/10 + 1 * (1/2) * 1) (k := 140) (by norm_num) (by norm_num)]
  rw [max_eq_right (by norm_num)]
  norm_num

theorem rawDailyStock_ten_one : rawDailyStock [10, 1] 30 2 = [16, 7/5] := by
  rw [rawDailyStock, show nDays [10, 1] 2 = 2 by norm_num [nDays],
    show List.range 2 = [0, 1] from rfl]
  simp only [List.map_cons, List.map_nil, dayStock_ten_one_zero, dayStock_ten_one_one]

theorem preServiceLevel_ten_one : preServiceLevel [10, 1] 30 2 = 100 := by
  rw [preServiceLevel, rawDailyStock_ten_one]
  simp only [List.sum_cons, List.sum_nil, add_zero]
  rw [show (((10:ℚ) + 1 : ℚ) : ℝ) = 11 by norm_num]
  rw [max_eq_left (by norm_num : (1:ℝ) ≤ 11)]
  rw [min_eq_left (by norm_num)]

/-- C1 counterexample: on the series [10, 1] with shelf life 30 and horizon 2,
day 0 is a peak day; the source computes safety stock 10 * 0.5 = 5 from the
unadjusted base and returns 11 + 5 = 16.00, while the formula of the claim
(safety stock from the adjusted base 11) yields 11 + 5.5 = 16.50. -/
theorem claim_C1_counterexample :
    ¬ ((optimizeSingleProduct [10, 1] 30 2).daily_stock[0]? =
        some (specStep5DayStock [10, 1] 30 0)) := by
  have hspec : specStep5DayStock [10, 1] 30 0 = 33/2 := by
    have hbase : baseStockAdj [10, 1] 0 = 11 := by
      rw [baseStockAdj, if_pos (by norm_num)]
      simp only [List.getD_cons_zero]
      rw [mean_ten_one, if_pos (by norm_num : (10:ℚ) > 11/2 * 1.2)]
      norm_num
    rw [specStep5DayStock, hbase, safetyStockFactor_ten_one, shelfLifeFactor_thirty]
    rw [show (((11:ℚ) : ℚ) : ℝ) = 11 by norm_num, show (((1:ℚ) : ℚ) : ℝ) = 1 by norm_num]
    rw [round2_eq_of (x := (11:ℝ) + 11 * (1/2) * 1) (k := 1650) (by norm_num) (by norm_num)]
    rw [max_eq_right (by norm_num)]
    norm_num
  have hcode : (optimizeSingleProduct [10, 1] 30 2).daily_stock[0]? = some 16 := by
    rw [optimizeSingleProduct_pos _ _ _ (by norm_num [nDays])]
    dsimp only
    rw [correctedDailyStock, if_neg (by rw [preServiceLevel_ten_one]; norm_num),
      rawDailyStock_ten_one]
    simp only [List.map_cons, List.map_nil]
    rw [round2_eq_of (x := (16:ℝ)) (k := 1600) (by norm_num) (by norm_num)]
    norm_num
  rw [hcode, hspec]
  intro h
  have := Option.some.inj h
  norm_num at this

/-- C1 amended: for every day d of the effective range, whenever the
correction pass does not trigger (pre-correction service level at least 80),
the returned daily_stock[d] equals max(0, round2(adjusted_base + safety))
where the ADJUSTED base is demand[d] times 1.1 (peak day), 0.9 (trough day)
or 1 — but the safety stock is demand[d] (the UNADJUSTED base) times
safety_stock_factor times shelf_life_factor, contrary to the order stated in
the claim. -/
theorem claim_C1_amended (l : List ℚ) (sl : ℚ) (horizon d : ℕ)
    (hd : d < nDays l horizon) (hs : 80 ≤ preServiceLevel l sl horizon) :
    (optimizeSingleProduct l sl horizon).daily_stock[d]? =
      some (max 0 (round2 (
        ((if l.getD d 0 > mean l * 1.2 then l.getD d 0 * 1.1
          else if l.getD d 0 < mean l * 0.8 then l.getD d 0 * 0.9
          else l.getD d 0 : ℚ) : ℝ) +
        ((l.getD d 0 : ℚ) : ℝ) * safetyStockFactor l * ((shelfLifeFactor sl : ℚ) : ℝ)))) := by
  have hlen : d < l.length := lt_of_lt_of_le hd (min_le_right _ _)
  have hne : nDays l horizon ≠ 0 := by omega
  have hget : l.getD d (mean l) = l.getD d 0 := by
    rw [List.getD_eq_getElem _ _ hlen, List.getD_eq_getElem _ _ hlen]
  rw [optimizeSingleProduct_pos _ _ _ hne]
  dsimp only
  rw [correctedDailyStock, if_neg (not_lt.mpr hs)]
  rw [List.getElem?_map, rawDailyStock, List.getElem?_map, List.getElem?_range hd]
  simp only [Option.map_some']
  rw [dayStock, round2_max_zero_round2]
  rw [baseStockAdj, if_pos hlen, hget]

/-- C1 witness: the amended statement applied to the series [10, 1] with shelf
life 30, horizon 2 and day 0, where the correction pass does not trigger. -/
theorem claim_C1_witness :
    (optimizeSingleProduct [10, 1] 30 2).daily_stock[0]? =
      some (max 0 (round2 (
        ((if ([10, 1] : List ℚ).getD 0 0 > mean [10, 1] * 1.2
            then ([10, 1] : List ℚ).getD 0 0 * 1.1
          else if ([10, 1] : List ℚ).getD 0 0 < mean [10, 1] * 0.8
            then ([10, 1] : List ℚ).getD 0 0 * 0.9
          else ([10, 1] : List ℚ).getD 0 0 : ℚ) : ℝ) +
        ((([10, 1] : List ℚ).getD 0 0 : ℚ) : ℝ) * safetyStockFactor [10, 1] *
          ((shelfLifeFactor 30 : ℚ) : ℝ)))) :=
  claim_C1_amended [10, 1] 30 2 0 (by norm_num [nDays])
    (by rw [preServiceLevel_ten_one]; norm_num)

theorem preServiceLevel_pair_one : preServiceLevel (List.replicate 2 1) 30 1 = 50 := by
  have hr1 : round2 (((1:ℚ) : ℚ) : ℝ) = 1 := by
    rw [show (((1:ℚ) : ℚ) : ℝ) = 1 by norm_num]
    rw [round2_eq_of (x := (1:ℝ)) (k := 100) (by norm_num) (by norm_num)]
    norm_num
  have hraw : rawDailyStock (List.replicate 2 1) 30 1 = [1] := by
    rw [rawDailyStock_replicate 2 1 30 1 (by norm_num) (by norm_num) (by norm_num), hr1]
    rw [max_eq_right (by norm_num : (0:ℝ) ≤ 1)]
    rfl
  rw [preServiceLevel, hraw]
  simp only [List.sum_cons, List.sum_nil, add_zero]
  rw [show (((List.replicate 2 (1:ℚ)).sum : ℚ) : ℝ) = 2 by
    rw [List.sum_replicate, nsmul_eq_mul]; norm_num]
  rw [max_eq_left (by norm_num : (1:ℝ) ≤ 2)]
  rw [min_eq_right (by norm_num)]
  norm_num

/-- C10 witness: the correction-pass inequalities at the constant two-day
series of demand 1 with horizon 1, where the pre-correction service level
is 50. -/
theorem claim_C10_witness :
    1 ≤ adjustmentFactor (List.replicate 2 1) 30 1 ∧
    List.Forall₂ (fun a b => a ≤ b) (rawDailyStock (List.replicate 2 1) 30 1)
      (correctedDailyStock (List.replicate 2 1) 30 1) ∧
    (rawDailyStock (List.replicate 2 1) 30 1).sum ≤
      (correctedDailyStock (List.replicate 2 1) 30 1).sum :=
  claim_C10 (List.replicate 2 1) 30 1 (by rw [preServiceLevel_pair_one]; norm_num)

/-! ## Claim C6: single-day monotonicity analysis -/

theorem shelfLifeFactor_bounds (sl : ℚ) : 1/10 ≤ shelfLifeFactor sl ∧ shelfLifeFactor sl ≤ 1 := by
  constructor
  · refine le_trans (by norm_num) (le_max_left (0.1:ℚ) _)
  · rw [shelfLifeFactor]
    exact max_le (by norm_num) (min_le_left _ _)

theorem shelfLifeFactor_real_bounds (sl : ℚ) :
    (1/10 : ℝ) ≤ ((shelfLifeFactor sl : ℚ) : ℝ) ∧ ((shelfLifeFactor sl : ℚ) : ℝ) ≤ 1 := by
  have h := shelfLifeFactor_bounds sl
  constructor
  · have h' : ((1/10 : ℚ) : ℝ) ≤ ((shelfLifeFactor sl : ℚ) : ℝ) := by exact_mod_cast h.1
    linarith [show ((1/10 : ℚ) : ℝ) = (1/10 : ℝ) from by norm_num]
  · exact_mod_cast h.2

theorem safetyStockFactor_singleton_ge_one (t : ℚ) (h1 : 1 ≤ t) :
    safetyStockFactor [t] = 0.2 := by
  rw [safetyStockFactor, demandStd_singleton, mean_singleton]
  have ht1 : (1:ℝ) ≤ ((t : ℚ) : ℝ) := by exact_mod_cast h1
  have ht0 : ((t : ℚ) : ℝ) ≠ 0 := by linarith
  rw [max_eq_left ht1, mul_comm, mul_div_assoc, div_self ht0, mul_one]
  exact min_eq_right (by norm_num)

theorem safetyStockFactor_singleton_eq (t : ℚ) (h0 : 0 ≤ t) :
    safetyStockFactor [t] = 0.2 * min ((t : ℚ) : ℝ) 1 := by
  rcases le_total t 1 with h | h
  · rw [safetyStockFactor_singleton t h0 h, min_eq_left (by exact_mod_cast h)]
    ring
  · rw [safetyStockFactor_singleton_ge_one t h, min_eq_right (by exact_mod_cast h)]
    norm_num

theorem dayStock_singleton_eq (t sl : ℚ) (h0 : 0 ≤ t) :
    dayStock [t] sl 0 =
      max 0 (round2 (((t : ℚ) : ℝ) +
        ((t : ℚ) : ℝ) * safetyStockFactor [t] * ((shelfLifeFactor sl : ℚ) : ℝ))) := by
  rw [dayStock, baseStockAdj_singleton t h0]
  simp only [List.getD_cons_zero]

theorem round2_dayStock (l : List ℚ) (sl : ℚ) (d : ℕ) :
    round2 (dayStock l sl d) = dayStock l sl d := by
  rw [dayStock, round2_max_zero_round2]

theorem dayStock_nonneg (l : List ℚ) (sl : ℚ) (d : ℕ) : 0 ≤ dayStock l sl d :=
  le_max_left _ _

theorem dayStock_quant (l : List ℚ) (sl : ℚ) (d : ℕ) :
    ∃ k : ℤ, 0 ≤ k ∧ dayStock l sl d = (k : ℝ) / 100 := by
  rw [dayStock]
  rcases le_or_lt
    (round2 (((baseStockAdj l d : ℚ) : ℝ) +
      ((l.getD d (mean l) : ℚ) : ℝ) * safetyStockFactor l * ((shelfLifeFactor sl : ℚ) : ℝ))) 0
    with h | h
  · exact ⟨0, le_rfl, by rw [max_eq_left h]; norm_num⟩
  · refine ⟨round ((((baseStockAdj l d : ℚ) : ℝ) +
      ((l.getD d (mean l) : ℚ) : ℝ) * safetyStockFactor l *
        ((shelfLifeFactor sl : ℚ) : ℝ)) * 100), ?_, ?_⟩
    · rw [round2] at h
      have h100 : (0:ℝ) < 100 := by norm_num
      have := (div_pos_iff.mp h)
      rcases this with ⟨hn, _⟩ | ⟨_, hd2⟩
      · exact_mod_cast hn.le
      · linarith
    · rw [max_eq_right h.le, round2]

theorem dayStock_small_eq_zero (l : List ℚ) (sl : ℚ) (d : ℕ)
    (h : dayStock l sl d < 1/100) : dayStock l sl d = 0 := by
  obtain ⟨k, hk0, hkE⟩ := dayStock_quant l sl d
  rw [hkE] at h ⊢
  have hk1 : (k:ℝ) < 1 := by linarith
  have hk1' : k < 1 := by exact_mod_cast hk1
  have hk : k = 0 := by omega
  rw [hk]
  norm_num

theorem dayStock_singleton_mono (t u sl : ℚ) (h0 : 0 ≤ t) (htu : t ≤ u) :
    dayStock [t] sl 0 ≤ dayStock [u] sl 0 := by
  have hu0 : (0:ℚ) ≤ u := h0.trans htu
  rw [dayStock_singleton_eq t sl h0, dayStock_singleton_eq u sl hu0,
    safetyStockFactor_singleton_eq t h0, safetyStockFactor_singleton_eq u hu0]
  refine max_le_max le_rfl (round2_mono ?_)
  have htR : ((t : ℚ) : ℝ) ≤ ((u : ℚ) : ℝ) := by exact_mod_cast htu
  have ht0R : (0:ℝ) ≤ ((t : ℚ) : ℝ) := by exact_mod_cast h0
  have hu0R : (0:ℝ) ≤ ((u : ℚ) : ℝ) := by exact_mod_cast hu0
  have hfb := shelfLifeFactor_real_bounds sl
  have hf0 : (0:ℝ) ≤ ((shelfLifeFactor sl : ℚ) : ℝ) := le_trans (by norm_num) hfb.1
  have hmin : min ((t : ℚ) : ℝ) 1 ≤ min ((u : ℚ) : ℝ) 1 := min_le_min htR le_rfl
  have hmin0 : (0:ℝ) ≤ min ((t : ℚ) : ℝ) 1 := le_min ht0R zero_le_one
  have key : ((t : ℚ) : ℝ) * (0.2 * min ((t : ℚ) : ℝ) 1) * ((shelfLifeFactor sl : ℚ) : ℝ) ≤
      ((u : ℚ) : ℝ) * (0.2 * min ((u : ℚ) : ℝ) 1) * ((shelfLifeFactor sl : ℚ) : ℝ) := by
    refine mul_le_mul_of_nonneg_right ?_ hf0
    exact mul_le_mul htR (by linarith) (by linarith) hu0R
  linarith

theorem dayStock_singleton_lower (t sl : ℚ) (h1 : 1 ≤ t) :
    1.02 * ((t : ℚ) : ℝ) - 1/200 ≤ dayStock [t] sl 0 := by
  have h0 : (0:ℚ) ≤ t := le_trans zero_le_one h1
  rw [dayStock_singleton_eq t sl h0, safetyStockFactor_singleton_ge_one t h1]
  have htR : (1:ℝ) ≤ ((t : ℚ) : ℝ) := by exact_mod_cast h1
  have hf0 : ((1:ℝ))/10 ≤ ((shelfLifeFactor sl : ℚ) : ℝ) := (shelfLifeFactor_real_bounds sl).1
  have hraw : 1.02 * ((t : ℚ) : ℝ) ≤
      ((t : ℚ) : ℝ) + ((t : ℚ) : ℝ) * 0.2 * ((shelfLifeFactor sl : ℚ) : ℝ) := by
    nlinarith
  have hrd := abs_round2_sub (((t : ℚ) : ℝ) + ((t : ℚ) : ℝ) * 0.2 * ((shelfLifeFactor sl : ℚ) : ℝ))
  have hrd' := (abs_le.mp hrd).1
  have hle : round2 (((t : ℚ) : ℝ) + ((t : ℚ) : ℝ) * 0.2 * ((shelfLifeFactor sl : ℚ) : ℝ)) ≤
      max 0 (round2 (((t : ℚ) : ℝ) + ((t : ℚ) : ℝ) * 0.2 * ((shelfLifeFactor sl : ℚ) : ℝ))) :=
    le_max_right _ _
  linarith

theorem pre_singleton_ge_one (t sl : ℚ) (horizon : ℕ) (h1 : 1 ≤ t) (hh : 1 ≤ horizon) :
    preServiceLevel [t] sl horizon = 100 := by
  rw [preServiceLevel, rawDailyStock_singleton t sl horizon hh]
  simp only [List.sum_cons, List.sum_nil, add_zero]
  have htR : (1:ℝ) ≤ ((t : ℚ) : ℝ) := by exact_mod_cast h1
  rw [max_eq_left htR]
  refine min_eq_left ?_
  have hlow := dayStock_singleton_lower t sl h1
  have hpos : (0:ℝ) < ((t : ℚ) : ℝ) := lt_of_lt_of_le one_pos htR
  rw [div_mul_eq_mul_div, le_div_iff₀ hpos]
  nlinarith

theorem pre_singleton_le_one (t sl : ℚ) (horizon : ℕ) (h1 : t ≤ 1) (hh : 1 ≤ horizon) :
    preServiceLevel [t] sl horizon = min 100 (dayStock [t] sl 0 * 100) := by
  rw [preServiceLevel, rawDailyStock_singleton t sl horizon hh]
  simp only [List.sum_cons, List.sum_nil, add_zero]
  rw [max_eq_right (by exact_mod_cast h1 : ((t : ℚ) : ℝ) ≤ 1), div_one]

theorem head_singleton_of_ge (t sl : ℚ) (horizon : ℕ) (hh : 1 ≤ horizon)
    (hs : 80 ≤ preServiceLevel [t] sl horizon) :
    (optimizeSingleProduct [t] sl horizon).daily_stock.headI = dayStock [t] sl 0 := by
  have hne : nDays [t] horizon ≠ 0 := by
    simp only [nDays, List.length_singleton]
    omega
  rw [optimizeSingleProduct_pos _ _ _ hne]
  dsimp only
  rw [correctedDailyStock, if_neg (not_lt.mpr hs), rawDailyStock_singleton t sl horizon hh]
  simp only [List.map_cons, List.map_nil, List.headI]
  exact round2_dayStock [t] sl 0

theorem head_singleton_of_lt (t sl : ℚ) (horizon : ℕ) (hh : 1 ≤ horizon)
    (hs : preServiceLevel [t] sl horizon < 80) :
    (optimizeSingleProduct [t] sl horizon).daily_stock.headI =
      round2 (dayStock [t] sl 0 * adjustmentFactor [t] sl horizon) := by
  have hne : nDays [t] horizon ≠ 0 := by
    simp only [nDays, List.length_singleton]
    omega
  rw [optimizeSingleProduct_pos _ _ _ hne]
  dsimp only
  rw [correctedDailyStock, if_pos hs, rawDailyStock_singleton t sl horizon hh]
  simp only [List.map_cons, List.map_nil, List.headI]

theorem head_singleton_corr (t sl : ℚ) (horizon : ℕ) (h1 : t ≤ 1) (hh : 1 ≤ horizon)
    (hE1 : 1/100 ≤ dayStock [t] sl 0) (hE2 : dayStock [t] sl 0 < 4/5) :
    (optimizeSingleProduct [t] sl horizon).daily_stock.headI = 4/5 := by
  have hpre : preServiceLevel [t] sl horizon = dayStock [t] sl 0 * 100 := by
    rw [pre_singleton_le_one t sl horizon h1 hh]
    exact min_eq_right (by linarith)
  have hlt : preServiceLevel [t] sl horizon < 80 := by rw [hpre]; linarith
  rw [head_singleton_of_lt t sl horizon hh hlt]
  have hadj : adjustmentFactor [t] sl horizon = 80 / (dayStock [t] sl 0 * 100) := by
    rw [adjustmentFactor, hpre, max_eq_left (by linarith)]
  rw [hadj]
  have hEne : dayStock [t] sl 0 ≠ 0 := ne_of_gt (by linarith)
  have hcalc : dayStock [t] sl 0 * (80 / (dayStock [t] sl 0 * 100)) = 4/5 := by
    field_simp
    ring
  rw [hcalc, round2_eq_of (x := (4:ℝ)/5) (k := 80) (by norm_num) (by norm_num)]
  norm_num

theorem head_singleton_corr_zero (t sl : ℚ) (horizon : ℕ) (hh : 1 ≤ horizon)
    (hs : preServiceLevel [t] sl horizon < 80) (hE0 : dayStock [t] sl 0 = 0) :
    (optimizeSingleProduct [t] sl horizon).daily_stock.headI = 0 := by
  rw [head_singleton_of_lt t sl horizon hh hs, hE0, zero_mul, round2_zero]

theorem dayStock_ge_of_nocorr (t sl : ℚ) (horizon : ℕ) (h1 : t ≤ 1) (hh : 1 ≤ horizon)
    (hs : ¬ preServiceLevel [t] sl horizon < 80) : 4/5 ≤ dayStock [t] sl 0 := by
  have h80 := not_lt.mp hs
  rw [pre_singleton_le_one t sl horizon h1 hh] at h80
  have := le_trans h80 (min_le_right _ _)
  linarith

theorem dayStock_lt_of_corr (t sl : ℚ) (horizon : ℕ) (h1 : t ≤ 1) (hh : 1 ≤ horizon)
    (hs : preServiceLevel [t] sl horizon < 80) : dayStock [t] sl 0 < 4/5 := by
  by_contra h
  push_neg at h
  rw [pre_singleton_le_one t sl horizon h1 hh] at hs
  have : (80:ℝ) ≤ min 100 (dayStock [t] sl 0 * 100) := le_min (by norm_num) (by linarith)
  linarith

/-- C6 amended: for demand series of LENGTH ONE, increasing the single day's
demand value never decreases that day's returned daily_stock entry, for every
shelf life and every positive horizon.  (For longer series the claim as stated
fails because of the service-level correction pass, see the counterexample.) -/
theorem claim_C6_amended (t u sl : ℚ) (horizon : ℕ)
    (h0 : 0 ≤ t) (htu : t ≤ u) (hh : 1 ≤ horizon) :
    (optimizeSingleProduct [t] sl horizon).daily_stock.headI ≤
      (optimizeSingleProduct [u] sl horizon).daily_stock.headI := by
  have hu0 : (0:ℚ) ≤ u := h0.trans htu
  have hmono := dayStock_singleton_mono t u sl h0 htu
  have hEt0 := dayStock_nonneg [t] sl 0
  have hEu0 := dayStock_nonneg [u] sl 0
  rcases le_total 1 t with h1t | h1t
  · have h1u : (1:ℚ) ≤ u := h1t.trans htu
    rw [head_singleton_of_ge t sl horizon hh
        (by rw [pre_singleton_ge_one t sl horizon h1t hh]; norm_num),
      head_singleton_of_ge u sl horizon hh
        (by rw [pre_singleton_ge_one u sl horizon h1u hh]; norm_num)]
    exact hmono
  · rcases le_total 1 u with h1u | h1u
    · -- t ≤ 1 ≤ u : the u-side never corrects and its stock is large
      have hheadu := head_singleton_of_ge u sl horizon hh
        (by rw [pre_singleton_ge_one u sl horizon h1u hh]; norm_num)
      have hElow := dayStock_singleton_lower u sl h1u
      have huR : (1:ℝ) ≤ ((u : ℚ) : ℝ) := by exact_mod_cast h1u
      rw [hheadu]
      by_cases hcorr : preServiceLevel [t] sl horizon < 80
      · by_cases hE : 1/100 ≤ dayStock [t] sl 0
        · rw [head_singleton_corr t sl horizon h1t hh hE
            (dayStock_lt_of_corr t sl horizon h1t hh hcorr)]
          nlinarith
        · push_neg at hE
          rw [head_singleton_corr_zero t sl horizon hh hcorr
            (dayStock_small_eq_zero _ _ _ hE)]
          exact hEu0
      · rw [head_singleton_of_ge t sl horizon hh (not_lt.mp hcorr)]
        exact hmono
    · -- t ≤ u ≤ 1
      by_cases hcorru : preServiceLevel [u] sl horizon < 80
      · have hEu_lt := dayStock_lt_of_corr u sl horizon h1u hh hcorru
        by_cases hcorrt : preServiceLevel [t] sl horizon < 80
        · by_cases hEt : 1/100 ≤ dayStock [t] sl 0
          · have hEu1 : 1/100 ≤ dayStock [u] sl 0 := le_trans hEt hmono
            rw [head_singleton_corr t sl horizon h1t hh hEt
                (dayStock_lt_of_corr t sl horizon h1t hh hcorrt),
              head_singleton_corr u sl horizon h1u hh hEu1 hEu_lt]
          · push_neg at hEt
            rw [head_singleton_corr_zero t sl horizon hh hcorrt
              (dayStock_small_eq_zero _ _ _ hEt)]
            rw [head_singleton_of_lt u sl horizon hh hcorru]
            exact round2_nonneg (mul_nonneg hEu0 (adjustmentFactor_nonneg _ _ _))
        · have := dayStock_ge_of_nocorr t sl horizon h1t hh hcorrt
          linarith
      · rw [head_singleton_of_ge u sl horizon hh (not_lt.mp hcorru)]
        have hEu_ge := dayStock_ge_of_nocorr u sl horizon h1u hh hcorru
        by_cases hcorrt : preServiceLevel [t] sl horizon < 80
        · by_cases hEt : 1/100 ≤ dayStock [t] sl 0
          · rw [head_singleton_corr t sl horizon h1t hh hEt
              (dayStock_lt_of_corr t sl horizon h1t hh hcorrt)]
            linarith
          · push_neg at hEt
            rw [head_singleton_corr_zero t sl horizon hh hcorrt
              (dayStock_small_eq_zero _ _ _ hEt)]
            exact hEu0
        · rw [head_singleton_of_ge t sl horizon hh (not_lt.mp hcorrt)]
          exact hmono

/-- C6 witness: the single-day monotonicity at demands 1 and 2 with shelf
life 30 and horizon 1. -/
theorem claim_C6_witness :
    (optimizeSingleProduct [1] 30 1).daily_stock.headI ≤
      (optimizeSingleProduct [2] 30 1).daily_stock.headI :=
  claim_C6_amended 1 2 30 1 (by norm_num) (by norm_num) (by norm_num)

theorem mean_pair (a b : ℚ) : mean [a, b] = (a + b) / 2 := by
  rw [mean]
  norm_num [List.sum_cons, List.sum_nil]

theorem popVar_pair (a b : ℚ) : popVar [a, b] = ((a - b) / 2) ^ 2 := by
  rw [popVar, mean_pair]
  simp only [List.map_cons, List.map_nil, List.sum_cons, List.sum_nil, add_zero,
    List.length_cons, List.length_nil]
  push_cast
  ring

theorem demandStd_pair (a b : ℚ) (hab : b ≤ a) :
    demandStd [a, b] = (((a - b) / 2 : ℚ) : ℝ) := by
  rw [demandStd, if_pos (by norm_num), popVar_pair]
  rw [show ((((a - b) / 2) ^ 2 : ℚ) : ℝ) = ((((a - b) / 2 : ℚ) : ℝ)) ^ 2 by push_cast; ring]
  refine Real.sqrt_sq ?_
  have : (0:ℚ) ≤ (a - b) / 2 := by linarith
  exact_mod_cast this

theorem getD_pair_one (a b d : ℚ) : ([a, b] : List ℚ).getD 1 d = b := by
  simp [List.getD]

/-- C6 counterexample: raising the first day demand from 0.006 to 0.5 (second
day fixed at 0.0044, shelf life 30, horizon 2) DECREASES the returned day-0
stock from 0.80 to 0.79: the smaller series has service level 1 and is scaled
by the frozen factor 80, landing exactly on 0.80, while the larger series has
service level 68 and is scaled by 80/68, rounding down to 0.79. -/
theorem claim_C6_counterexample :
    (3:ℚ)/500 ≤ 1/2 ∧
    (optimizeSingleProduct [3/500, 11/2500] 30 2).daily_stock.headI = 4/5 ∧
    (optimizeSingleProduct [1/2, 11/2500] 30 2).daily_stock.headI = 79/100 ∧
    ¬ ((optimizeSingleProduct [3/500, 11/2500] 30 2).daily_stock.headI ≤
        (optimizeSingleProduct [1/2, 11/2500] 30 2).daily_stock.headI) := by
  -- run A: demand [0.006, 0.0044]
  have hmeanA : mean [3/500, 11/2500] = 13/2500 := by rw [mean_pair]; norm_num
  have hstdA : demandStd [3/500, 11/2500] = ((1/1250 : ℚ) : ℝ) := by
    rw [demandStd_pair _ _ (by norm_num)]
    norm_num
  have hssfA : safetyStockFactor [3/500, 11/2500] = 1/1250 := by
    rw [safetyStockFactor, hstdA, hmeanA]
    rw [show (((1:ℚ)/1250 : ℚ) : ℝ) = 1/1250 by norm_num,
      show (((13:ℚ)/2500 : ℚ) : ℝ) = 13/2500 by norm_num]
    rw [max_eq_right (by norm_num : (13:ℝ)/2500 ≤ 1), div_one]
    exact min_eq_right (by norm_num)
  have hbaseA0 : baseStockAdj [3/500, 11/2500] 0 = 3/500 := by
    rw [baseStockAdj, if_pos (by norm_num)]
    simp only [List.getD_cons_zero]
    rw [hmeanA, if_neg (by norm_num), if_neg (by norm_num)]
  have hbaseA1 : baseStockAdj [3/500, 11/2500] 1 = 11/2500 := by
    rw [baseStockAdj, if_pos (by norm_num), getD_pair_one]
    rw [hmeanA, if_neg (by norm_num), if_neg (by norm_num)]
  have hdayA0 : dayStock [3/500, 11/2500] 30 0 = 1/100 := by
    rw [dayStock, hbaseA0, hssfA, shelfLifeFactor_thirty]
    simp only [List.getD_cons_zero]
    rw [show (((3:ℚ)/500 : ℚ) : ℝ) = 3/500 by norm_num,
      show (((1:ℚ) : ℚ) : ℝ) = 1 by norm_num]
    rw [round2_eq_of (x := (3:ℝ)/500 + 3/500 * (1/1250) * 1) (k := 1)
      (by norm_num) (by norm_num)]
    rw [max_eq_right (by norm_num)]
    norm_num
  have hdayA1 : dayStock [3/500, 11/2500] 30 1 = 0 := by
    rw [dayStock, hbaseA1, hssfA, shelfLifeFactor_thirty, getD_pair_one]
    rw [show (((11:ℚ)/2500 : ℚ) : ℝ) = 11/2500 by norm_num,
      show (((1:ℚ) : ℚ) : ℝ) = 1 by norm_num]
    rw [round2_eq_of (x := (11:ℝ)/2500 + 11/2500 * (1/1250) * 1) (k := 0)
      (by norm_num) (by norm_num)]
    norm_num
  have hrawA : rawDailyStock [3/500, 11/2500] 30 2 = [1/100, 0] := by
    rw [rawDailyStock, show nDays [3/500, 11/2500] 2 = 2 by norm_num [nDays],
      show List.range 2 = [0, 1] from rfl]
    simp only [List.map_cons, List.map_nil, hdayA0, hdayA1]
  have hpreA : preServiceLevel [3/500, 11/2500] 30 2 = 1 := by
    rw [preServiceLevel, hrawA]
    simp only [List.sum_cons, List.sum_nil, add_zero]
    rw [show ((((3:ℚ)/500 + 11/2500) : ℚ) : ℝ) = 13/1250 by norm_num]
    rw [max_eq_right (by norm_num : (13:ℝ)/1250 ≤ 1)]
    rw [min_eq_right (by norm_num)]
    norm_num
  have hadjA : adjustmentFactor [3/500, 11/2500] 30 2 = 80 := by
    rw [adjustmentFactor, hpreA, max_self]
    norm_num
  have hheadA : (optimizeSingleProduct [3/500, 11/2500] 30 2).daily_stock.headI = 4/5 := by
    rw [optimizeSingleProduct_pos _ _ _ (by norm_num [nDays])]
    dsimp only
    rw [correctedDailyStock, if_pos (by rw [hpreA]; norm_num), hrawA, hadjA]
    simp only [List.map_cons, List.map_nil, List.headI]
    rw [show (1:ℝ)/100 * 80 = 4/5 by norm_num]
    rw [round2_eq_of (x := (4:ℝ)/5) (k := 80) (by norm_num) (by norm_num)]
    norm_num
  -- run B: demand [0.5, 0.0044]
  have hmeanB : mean [1/2, 11/2500] = 1261/5000 := by rw [mean_pair]; norm_num
  have hstdB : demandStd [1/2, 11/2500] = ((1239/5000 : ℚ) : ℝ) := by
    rw [demandStd_pair _ _ (by norm_num)]
    norm_num
  have hssfB : safetyStockFactor [1/2, 11/2500] = 1239/5000 := by
    rw [safetyStockFactor, hstdB, hmeanB]
    rw [show (((1239:ℚ)/5000 : ℚ) : ℝ) = 1239/5000 by norm_num,
      show (((1261:ℚ)/5000 : ℚ) : ℝ) = 1261/5000 by norm_num]
    rw [max_eq_right (by norm_num : (1261:ℝ)/5000 ≤ 1), div_one]
    exact min_eq_right (by norm_num)
  have hbaseB0 : baseStockAdj [1/2, 11/2500] 0 = 11/20 := by
    rw [baseStockAdj, if_pos (by norm_num)]
    simp only [List.getD_cons_zero]
    rw [hmeanB, if_pos (by norm_num : (1:ℚ)/2 > 1261/5000 * 1.2)]
    norm_num
  have hbaseB1 : baseStockAdj [1/2, 11/2500] 1 = 99/25000 := by
    rw [baseStockAdj, if_pos (by norm_num), getD_pair_one]
    rw [hmeanB, if_neg (by norm_num), if_pos (by norm_num : (11:ℚ)/2500 < 1261/5000 * 0.8)]
    norm_num
  have hdayB0 : dayStock [1/2, 11/2500] 30 0 = 67/100 := by
    rw [dayStock, hbaseB0, hssfB, shelfLifeFactor_thirty]
    simp only [List.getD_cons_zero]
    rw [show (((11:ℚ)/20 : ℚ) : ℝ) = 11/20 by norm_num,
      show (((1:ℚ)/2 : ℚ) : ℝ) = 1/2 by norm_num,
      show (((1:ℚ) : ℚ) : ℝ) = 1 by norm_num]
    rw [round2_eq_of (x := (11:ℝ)/20 + 1/2 * (1239/5000) * 1) (k := 67)
      (by norm_num) (by norm_num)]
    rw [max_eq_right (by norm_num)]
    norm_num
  have hdayB1 : dayStock [1/2, 11/2500] 30 1 = 1/100 := by
    rw [dayStock, hbaseB1, hssfB, shelfLifeFactor_thirty, getD_pair_one]
    rw [show (((99:ℚ)/25000 : ℚ) : ℝ) = 99/25000 by norm_num,
      show (((11:ℚ)/2500 : ℚ) : ℝ) = 11/2500 by norm_num,
      show (((1:ℚ) : ℚ) : ℝ) = 1 by norm_num]
    rw [round2_eq_of (x := (99:ℝ)/25000 + 11/2500 * (1239/5000) * 1) (k := 1)
      (by norm_num) (by norm_num)]
    rw [max_eq_right (by norm_num)]
    norm_num
  have hrawB : rawDailyStock [1/2, 11/2500] 30 2 = [67/100, 1/100] := by
    rw [rawDailyStock, show nDays [1/2, 11/2500] 2 = 2 by norm_num [nDays],
      show List.range 2 = [0, 1] from rfl]
    simp only [List.map_cons, List.map_nil, hdayB0, hdayB1]
  have hpreB : preServiceLevel [1/2, 11/2500] 30 2 = 68 := by
    rw [preServiceLevel, hrawB]
    simp only [List.sum_cons, List.sum_nil, add_zero]
    rw [show ((((1:ℚ)/2 + 11/2500) : ℚ) : ℝ) = 1261/2500 by norm_num]
    rw [max_eq_right (by norm_num : (1261:ℝ)/2500 ≤ 1)]
    rw [min_eq_right (by norm_num)]
    norm_num
  have hadjB : adjustmentFactor [1/2, 11/2500] 30 2 = 20/17 := by
    rw [adjustmentFactor, hpreB, max_eq_left (by norm_num : (1:ℝ) ≤ 68)]
    norm_num
  have hheadB : (optimizeSingleProduct [1/2, 11/2500] 30 2).daily_stock.headI = 79/100 := by
    rw [optimizeSingleProduct_pos _ _ _ (by norm_num [nDays])]
    dsimp only
    rw [correctedDailyStock, if_pos (by rw [hpreB]; norm_num), hrawB, hadjB]
    simp only [List.map_cons, List.map_nil, List.headI]
    rw [show (67:ℝ)/100 * (20/17) = 67/85 by norm_num]
    rw [round2_eq_of (x := (67:ℝ)/85) (k := 79) (by norm_num) (by norm_num)]
    norm_num
  refine ⟨by norm_num, hheadA, hheadB, ?_⟩
  rw [hheadA, hheadB]
  norm_num

/-! ## Claim C9: the plan operation (routes/plan.py and optimize_stock_plan)

The HTTP layer, CSV files and the trained regression model are external
collaborators; they are modelled by an environment: `forecastReady` is whether
the forecaster can load or train its model (a missing model with missing
sales/products data raises FileNotFoundError inside train_model),
`catalog` is the content of products.csv (`none` = file missing, entries are
product id and shelf life), and `forecastFn` is the opaque per-product model
output (`none` = the id yields no usable forecast).  FileNotFoundError mapped
to HTTP 404 is `notFound`; the 400 empty-list rejection of the route is
`validation`. -/

/-- The error kinds surfaced by the plan route: `notFound` is the 404 mapped
from FileNotFoundError, `validation` the 400 for an explicit empty id list,
and `internalError` the 500 returned on plan.py lines 49-51 when the optimizer
produced an empty stock plan. -/
inductive PlanError where
  | notFound : PlanError
  | validation : PlanError
  | internalError : PlanError
deriving DecidableEq

/-- The external collaborators of the plan operation. -/
structure PlanEnv where
  forecastReady : Bool
  catalog : Option (List (String × ℚ))
  forecastFn : String → Option (List ℚ)

/-- forecast.py lines 240-248: one id of the prediction loop; an id missing
from the catalog is skipped, otherwise the model output is keyed by the id. -/
def forecastEntry (env : PlanEnv) (cat : List (String × ℚ)) (pid : String) :
    Option (String × List ℚ) :=
  (cat.find? (fun p => p.1 == pid)).bind
    (fun _ => (env.forecastFn pid).map (fun f => (pid, f)))

/-- forecast.py lines 220-238: predict_demand; loading/training the model
fails with FileNotFoundError when the underlying data is absent, and a missing
products.csv raises FileNotFoundError on line 228. -/
def predictDemand (env : PlanEnv) (pids : List String) :
    Except PlanError (List (String × List ℚ)) :=
  if env.forecastReady = false then .error .notFound
  else
    match env.catalog with
    | none => .error .notFound
    | some cat => .ok (pids.filterMap (forecastEntry env cat))

/-- optimizer.py lines 39-81: one id of the planning loop; ids absent from the
predictions or from the catalog are skipped (lines 40-47), the rest get an
allocation from _optimize_single_product.  The record payload is abstracted to
the id and the allocation. -/
noncomputable def planEntry (preds : List (String × List ℚ)) (cat : List (String × ℚ))
    (horizon : ℕ) (pid : String) : Option (String × AllocResult) :=
  (preds.find? (fun p => p.1 == pid)).bind (fun pr =>
    (cat.find? (fun p => p.1 == pid)).map
      (fun pc => (pid, optimizeSingleProduct pr.2 pc.2 horizon)))

/-- optimizer.py lines 20-88: optimize_stock_plan.  With no explicit ids the
first ten catalog ids are used (line 28, after a FileNotFoundError when
products.csv is absent); predictions are fetched in one batch, products.csv is
read again (line 35), and the per-id loop silently skips failing ids. -/
noncomputable def optimizeStockPlan (env : PlanEnv) (productIds : Option (List String))
    (horizon : ℕ) : Except PlanError (List (String × AllocResult)) :=
  match productIds with
  | none =>
    match env.catalog with
    | none => .error .notFound
    | some cat =>
      match predictDemand env ((cat.map Prod.fst).take 10) with
      | .error e => .error e
      | .ok preds => .ok (((cat.map Prod.fst).take 10).filterMap (planEntry preds cat horizon))
  | some pids =>
    match predictDemand env pids with
    | .error e => .error e
    | .ok preds =>
      match env.catalog with
      | none => .error .notFound
      | some cat => .ok (pids.filterMap (planEntry preds cat horizon))

/-- plan.py lines 49-51: after the optimizer returns, the route rejects an
empty stock_plan list ("No stock plan could be generated") with a 500 error
instead of answering with empty records. -/
noncomputable def emptyPlanGuard (r : Except PlanError (List (String × AllocResult))) :
    Except PlanError (List (String × AllocResult)) :=
  match r with
  | .error e => .error e
  | .ok records => if records.isEmpty then .error .internalError else .ok records

/-- plan.py lines 29-75: the route rejects an explicit empty id list with a
400 ValidationError before calling the optimizer, maps FileNotFoundError to a
404, and turns an empty resulting stock plan into a 500 (lines 49-51). -/
noncomputable def createStockPlan (env : PlanEnv) (productIds : Option (List String))
    (horizon : ℕ) : Except PlanError (List (String × AllocResult)) :=
  match productIds with
  | some pids =>
      if pids.length = 0 then .error .validation
      else emptyPlanGuard (optimizeStockPlan env (some pids) horizon)
  | none => emptyPlanGuard (optimizeStockPlan env none horizon)

theorem forecastEntry_eq_some (env : PlanEnv) (cat : List (String × ℚ)) (q : String)
    (x : String × List ℚ) (h : forecastEntry env cat q = some x) :
    x.1 = q ∧ (cat.find? (fun p => p.1 == q)).isSome ∧ env.forecastFn q = some x.2 := by
  rw [forecastEntry, Option.bind_eq_some] at h
  obtain ⟨pc, hpc, hmap⟩ := h
  rw [Option.map_eq_some'] at hmap
  obtain ⟨f, hf, hx⟩ := hmap
  subst hx
  exact ⟨rfl, by rw [hpc]; rfl, hf⟩

theorem planEntry_eq_some (preds : List (String × List ℚ)) (cat : List (String × ℚ))
    (horizon : ℕ) (q : String) (r : String × AllocResult)
    (h : planEntry preds cat horizon q = some r) :
    r.1 = q ∧ (preds.find? (fun p => p.1 == q)).isSome ∧
      (cat.find? (fun p => p.1 == q)).isSome := by
  rw [planEntry, Option.bind_eq_some] at h
  obtain ⟨pr, hpr, hmap⟩ := h
  rw [Option.map_eq_some'] at hmap
  obtain ⟨pc, hpc, hx⟩ := hmap
  subst hx
  exact ⟨rfl, by rw [hpr]; rfl, by rw [hpc]; rfl⟩

/-- A requested id resolving both lookups yields a plan record keyed by it. -/
theorem planEntry_resolved (env : PlanEnv) (cat : List (String × ℚ)) (pids : List String)
    (horizon : ℕ) (pid : String) (hmem : pid ∈ pids)
    (hcatsome : (cat.find? (fun p => p.1 == pid)).isSome)
    (hfnsome : (env.forecastFn pid).isSome) :
    ∃ a : AllocResult,
      planEntry (pids.filterMap (forecastEntry env cat)) cat horizon pid = some (pid, a) := by
  obtain ⟨pc, hpc⟩ := Option.isSome_iff_exists.mp hcatsome
  obtain ⟨f, hf⟩ := Option.isSome_iff_exists.mp hfnsome
  have hfe : forecastEntry env cat pid = some (pid, f) := by
    rw [forecastEntry, hpc, Option.some_bind, hf, Option.map_some']
  have hmempred : (pid, f) ∈ pids.filterMap (forecastEntry env cat) := by
    rw [List.mem_filterMap]
    exact ⟨pid, hmem, hfe⟩
  have hfindsome :
      ((pids.filterMap (forecastEntry env cat)).find? (fun p => p.1 == pid)).isSome := by
    rw [List.find?_isSome]
    exact ⟨(pid, f), hmempred, by simp⟩
  obtain ⟨pr, hpr⟩ := Option.isSome_iff_exists.mp hfindsome
  refine ⟨optimizeSingleProduct pr.2 pc.2 horizon, ?_⟩
  rw [planEntry, hpr, Option.some_bind, hpc, Option.map_some']

/-- Conversely, a plan record for an id certifies both of its lookups. -/
theorem planEntry_some_inv (env : PlanEnv) (cat : List (String × ℚ)) (pids : List String)
    (horizon : ℕ) (pid : String) (r : String × AllocResult)
    (h : planEntry (pids.filterMap (forecastEntry env cat)) cat horizon pid = some r) :
    r.1 = pid ∧ (cat.find? (fun p => p.1 == pid)).isSome ∧ (env.forecastFn pid).isSome := by
  obtain ⟨hr1, hpredsome, hcatsome⟩ := planEntry_eq_some _ _ _ _ _ h
  refine ⟨hr1, hcatsome, ?_⟩
  rw [List.find?_isSome] at hpredsome
  obtain ⟨x, hx, hbeq⟩ := hpredsome
  rw [List.mem_filterMap] at hx
  obtain ⟨q', hq', hFq'⟩ := hx
  obtain ⟨hx1, _, hfn⟩ := forecastEntry_eq_some _ _ _ _ hFq'
  have hxq : x.1 = pid := by simpa using hbeq
  rw [hxq] at hx1
  rw [hx1, hfn]
  rfl

/-- A tiny concrete environment for the C9 theorems: one catalog entry "A"
with shelf life 7; the model serves a forecast only for "A". -/
def planEnvExample : PlanEnv :=
  ⟨true, some [("A", 7)], fun pid => if pid = "A" then some [1, 2] else none⟩

/-- C9 counterexample: requesting only the id "B", which fails its catalog
lookup, does NOT leave a succeeding call with empty records — the empty
stock plan trips the guard of plan.py lines 49-51 and the whole call fails
with the 500 error, refuting the claimed silent-skip-never-fails behaviour. -/
theorem claim_C9_counterexample :
    createStockPlan planEnvExample (some ["B"]) 3 = .error .internalError := rfl

/-- C9 amended: the plan operation fails with NotFoundError when the forecast
data or the catalog is missing (unless the empty-list validation fires
first), fails with ValidationError on an explicitly empty id list, and, when
AT LEAST ONE requested id resolves both lookups, succeeds with exactly the
resolvable ids (the failing ids silently omitted); but when NO requested id
resolves, the empty stock plan makes the call fail with the route's 500
internal error (plan.py lines 49-51) instead of succeeding. -/
theorem claim_C9_amended :
    (∀ (env : PlanEnv) (pids : Option (List String)) (horizon : ℕ), pids ≠ some [] →
      (env.catalog = none ∨ env.forecastReady = false) →
      createStockPlan env pids horizon = .error .notFound) ∧
    (∀ (env : PlanEnv) (horizon : ℕ),
      createStockPlan env (some []) horizon = .error .validation) ∧
    (∀ (env : PlanEnv) (pids : List String) (horizon : ℕ) (cat : List (String × ℚ)),
      env.forecastReady = true → env.catalog = some cat →
      (∃ pid0 ∈ pids, (cat.find? (fun p => p.1 == pid0)).isSome ∧
        (env.forecastFn pid0).isSome) →
      ∃ records, createStockPlan env (some pids) horizon = .ok records ∧
        ∀ pid : String, pid ∈ records.map Prod.fst ↔
          (pid ∈ pids ∧ (cat.find? (fun p => p.1 == pid)).isSome ∧
            (env.forecastFn pid).isSome)) ∧
    (∀ (env : PlanEnv) (pids : List String) (horizon : ℕ) (cat : List (String × ℚ)),
      env.forecastReady = true → env.catalog = some cat → pids ≠ [] →
      (∀ pid ∈ pids, ¬((cat.find? (fun p => p.1 == pid)).isSome ∧
        (env.forecastFn pid).isSome)) →
      createStockPlan env (some pids) horizon = .error .internalError) := by
  refine ⟨?_, ?_, ?_, ?_⟩
  · intro env pids horizon hne hor
    cases pids with
    | none =>
      rcases hor with hc | hf
      · simp [createStockPlan, optimizeStockPlan, hc, emptyPlanGuard]
      · cases hcat : env.catalog with
        | none => simp [createStockPlan, optimizeStockPlan, hcat, emptyPlanGuard]
        | some cat =>
          simp [createStockPlan, optimizeStockPlan, hcat, predictDemand, hf, emptyPlanGuard]
    | some pids' =>
      have hlen : ¬(pids'.length = 0) := by
        intro h
        rw [List.length_eq_zero] at h
        exact hne (by rw [h])
      rcases hor with hc | hf
      · cases hr : env.forecastReady with
        | false =>
          simp [createStockPlan, hlen, optimizeStockPlan, predictDemand, hr, emptyPlanGuard]
        | true =>
          simp [createStockPlan, hlen, optimizeStockPlan, predictDemand, hr, hc, emptyPlanGuard]
      · simp [createStockPlan, hlen, optimizeStockPlan, predictDemand, hf, emptyPlanGuard]
  · intro env horizon
    simp [createStockPlan]
  · intro env pids horizon cat hready hcat hres
    obtain ⟨pid0, hmem0, hcat0, hfn0⟩ := hres
    have hlen : ¬(pids.length = 0) := by
      intro h
      rw [List.length_eq_zero] at h
      subst h
      exact (List.not_mem_nil pid0) hmem0
    obtain ⟨a0, ha0⟩ := planEntry_resolved env cat pids horizon pid0 hmem0 hcat0 hfn0
    have hmemrec : (pid0, a0) ∈
        pids.filterMap (planEntry (pids.filterMap (forecastEntry env cat)) cat horizon) := by
      rw [List.mem_filterMap]
      exact ⟨pid0, hmem0, ha0⟩
    have hnonnil :
        pids.filterMap (planEntry (pids.filterMap (forecastEntry env cat)) cat horizon) ≠ [] :=
      List.ne_nil_of_mem hmemrec
    refine ⟨pids.filterMap (planEntry (pids.filterMap (forecastEntry env cat)) cat horizon),
      ?_, ?_⟩
    · simp [createStockPlan, hlen, optimizeStockPlan, predictDemand, hready, hcat,
        emptyPlanGuard, hnonnil]
    · intro pid
      constructor
      · intro hmem
        rw [List.mem_map] at hmem
        obtain ⟨r, hr, hfst⟩ := hmem
        rw [List.mem_filterMap] at hr
        obtain ⟨q, hq, hPq⟩ := hr
        obtain ⟨hr1, hcs, hfs⟩ := planEntry_some_inv env cat pids horizon q r hPq
        have hqpid : q = pid := by rw [← hfst, hr1]
        subst hqpid
        exact ⟨hq, hcs, hfs⟩
      · rintro ⟨hmem, hcs, hfs⟩
        obtain ⟨a, ha⟩ := planEntry_resolved env cat pids horizon pid hmem hcs hfs
        rw [List.mem_map]
        refine ⟨(pid, a), ?_, rfl⟩
        rw [List.mem_filterMap]
        exact ⟨pid, hmem, ha⟩
  · intro env pids horizon cat hready hcat hne hall
    have hlen : ¬(pids.length = 0) := by
      intro h
      rw [List.length_eq_zero] at h
      exact hne h
    have hnone : ∀ pid ∈ pids,
        planEntry (pids.filterMap (forecastEntry env cat)) cat horizon pid = none := by
      intro pid hmem
      cases hP : planEntry (pids.filterMap (forecastEntry env cat)) cat horizon pid with
      | none => rfl
      | some r =>
        obtain ⟨_, hcs, hfs⟩ := planEntry_some_inv env cat pids horizon pid r hP
        exact absurd ⟨hcs, hfs⟩ (hall pid hmem)
    have hrecnil :
        pids.filterMap (planEntry (pids.filterMap (forecastEntry env cat)) cat horizon) = [] :=
      List.filterMap_eq_nil_iff.mpr hnone
    simp [createStockPlan, hlen, optimizeStockPlan, predictDemand, hready, hcat,
      emptyPlanGuard, hrecnil]

/-- C9 witness: in the example environment a plan for ids ["A", "B"] succeeds
("A" resolves) and contains exactly the resolvable id "A", while "B" is
silently omitted. -/
theorem claim_C9_witness :
    ∃ records, createStockPlan planEnvExample (some ["A", "B"]) 3 = .ok records ∧
      ∀ pid : String, pid ∈ records.map Prod.fst ↔
        (pid ∈ ["A", "B"] ∧
          ((([("A", (7:ℚ))]) : List (String × ℚ)).find? (fun p => p.1 == pid)).isSome ∧
          (planEnvExample.forecastFn pid).isSome) :=
  claim_C9_amended.2.2.1 planEnvExample ["A", "B"] 3 [("A", 7)] rfl rfl
    ⟨"A", by simp, rfl, rfl⟩

end DemandIQ
